import Mathlib

/-!
Verification development for the sposh reactive plan engine (Pogamut scripting,
python/sposh).  The Python modules lapparser.py, planbuilder.py, drive.py,
competence.py, action_pattern.py, sense.py, action.py and timer.py are embedded
shallowly below: every class becomes a structure over explicit state, every
method a pure function (stateful methods return the updated state), fallible
code returns Except.  Python floats are modelled as rationals; the Python 2
comparisons involving None (None < 0 is true) are embedded explicitly.  The
module element.py (the Element base classes and FireResult) is imported by the
sources but is not part of the tree; FireResult is modelled from the spec.
-/

namespace Sposh

/-- Error taxonomy mirroring the Python exceptions raised by the sources. -/
inductive PyErr where
  | attributeError (msg : String)
  | nameError (msg : String)
  | typeError (msg : String)
  | valueError (msg : String)
  | indexError (msg : String)
  | notImplementedError (msg : String)
  | parseError (msg : String)
  | outOfFuel
deriving DecidableEq, Repr

deriving instance DecidableEq for Except

/-- Values a sense reading or a converted sense literal can take
(Python int, float and str; floats are modelled as rationals). -/
inductive PyValue where
  | int (i : Int)
  | float (q : Rat)
  | str (s : String)
deriving DecidableEq, Repr

/-- Numeric view of a value, used for the mixed int/float comparisons. -/
def PyValue.asNum : PyValue → Option Rat
  | .int i => some (i : Rat)
  | .float q => some q
  | .str _ => none

/-- Python truthiness of a value (empty string and zero are falsy). -/
def pyTruthy : PyValue → Bool
  | .int i => i != 0
  | .float q => q != 0
  | .str s => s != ""

/-- Python 2 equality: numbers compare numerically across int/float,
strings compare as strings, a number never equals a string. -/
def pyEq (a b : PyValue) : Bool :=
  match a.asNum, b.asNum with
  | some x, some y => x == y
  | _, _ =>
    match a, b with
    | .str s, .str t => s == t
    | _, _ => false

/-- Python 2 less-than: numeric on numbers, lexicographic on strings;
for mixed number/string, Python 2 orders by type name, so every number
is smaller than every string. -/
def pyLt (a b : PyValue) : Bool :=
  match a.asNum, b.asNum with
  | some x, some y => x < y
  | some _, none => true
  | none, some _ => false
  | none, none =>
    match a, b with
    | .str s, .str t => s < t
    | _, _ => false

def pyLe (a b : PyValue) : Bool := pyLt a b || pyEq a b

def pyGt (a b : PyValue) : Bool := pyLt b a

def pyGe (a b : PyValue) : Bool := pyLt b a || pyEq a b

/-! Regex matchers of sense.py.  The three module-level patterns are anchored
full-string matchers except the boolean one, whose second alternative only is
end-anchored; all are applied with re.match (anchored at the start). -/

/-- A nonempty run of decimal digits. -/
def digits1 (s : List Char) : Bool := !s.isEmpty && s.all Char.isDigit

def isOctDigitCh (c : Char) : Bool := decide ('0' ≤ c) && decide (c ≤ '7')

def isHexDigitCh (c : Char) : Bool :=
  c.isDigit || (decide ('a' ≤ c) && decide (c ≤ 'f')) || (decide ('A' ≤ c) && decide (c ≤ 'F'))

/-- Nonzero decimal number: a digit 1-9 followed by digits. -/
def nonzeroNum : List Char → Bool
  | c :: r => decide ('1' ≤ c) && decide (c ≤ '9') && r.all Char.isDigit
  | [] => false

/-- Strip one optional trailing l or L (the regex suffix given before the end
anchor of the integer matcher). -/
def stripLongSuffix (s : List Char) : List Char :=
  match s.getLast? with
  | some c => if c = 'l' || c = 'L' then s.dropLast else s
  | none => s

/-- Matcher embedding the regex of sense.py line 10: zero, a signed nonzero
decimal, an octal literal or a hex literal, with an optional long suffix. -/
def intMatcher (s : String) : Bool :=
  let core := stripLongSuffix s.toList
  core = ['0'] ||
  (match core with
   | '-' :: r => nonzeroNum r
   | r => nonzeroNum r) ||
  (match core with
   | '0' :: r => digits1 r && r.all isOctDigitCh
   | _ => false) ||
  (match core with
   | '0' :: x :: r => (x = 'x' || x = 'X') && digits1 r && r.all isHexDigitCh
   | _ => false)

/-- Optional exponent part of the float matcher: empty, or e/E with an
optional sign and then digits. -/
def expPartMatch : List Char → Bool
  | [] => true
  | c :: r =>
    (c = 'e' || c = 'E') &&
    (match r with
     | s :: r2 => if s = '+' || s = '-' then digits1 r2 else digits1 r
     | [] => false)

/-- Body of the float matcher after the optional sign: digits, a dot and at
least one digit after it, or at least one digit and a trailing dot; then the
optional exponent. -/
def floatBodyMatch (s : List Char) : Bool :=
  let d1 := s.takeWhile Char.isDigit
  let rest := s.dropWhile Char.isDigit
  match rest with
  | '.' :: r2 =>
    let d2 := r2.takeWhile Char.isDigit
    let rest2 := r2.dropWhile Char.isDigit
    if !d2.isEmpty then expPartMatch rest2
    else !d1.isEmpty && expPartMatch rest2
  | _ => false

/-- Matcher embedding the regex of sense.py line 11. -/
def floatMatcher (s : String) : Bool :=
  match s.toList with
  | '-' :: r => floatBodyMatch r
  | r => floatBodyMatch r

/-- Matcher embedding the regex of sense.py line 12.  The first alternative is
only start-anchored (any string starting with true/True matches), the second is
also end-anchored (the whole string must be false/False). -/
def boolMatcher (s : String) : Bool :=
  List.isPrefixOf "True".toList s.toList || List.isPrefixOf "true".toList s.toList ||
  s = "False" || s = "false"

/-- Value of a nonempty digit run, base 10. -/
def decValue (s : List Char) : Nat :=
  s.foldl (fun acc c => acc * 10 + (c.toNat - 48)) 0

/-- Python 2 int() with base 10, as applied by the sources to matched literals:
an optional sign followed by decimal digits; anything else (hex or octal
prefixes, a long suffix) raises ValueError. -/
def pyInt (s : String) : Except PyErr Int :=
  match s.toList with
  | '-' :: r => if digits1 r then .ok (-(decValue r : Int)) else .error (.valueError s)
  | r => if digits1 r then .ok (decValue r : Int) else .error (.valueError s)

/-- Python float() on the shapes accepted by the float matcher, modelled as an
exact rational (digits, optional fraction, optional exponent). -/
def pyFloat (s : String) : Except PyErr Rat :=
  let signCore : Rat × List Char :=
    match s.toList with
    | '-' :: r => (-1, r)
    | r => (1, r)
  let sign := signCore.1
  let core := signCore.2
  let d1 := core.takeWhile Char.isDigit
  let rest := core.dropWhile Char.isDigit
  match rest with
  | '.' :: r2 =>
    let d2 := r2.takeWhile Char.isDigit
    let rest2 := r2.dropWhile Char.isDigit
    let mantissa : Rat := (decValue d1 : Rat) + (decValue d2 : Rat) / ((10 : Rat) ^ d2.length)
    let applyExp : List Char → Except PyErr Rat := fun e =>
      match e with
      | [] => .ok (sign * mantissa)
      | c :: r3 =>
        if c = 'e' || c = 'E' then
          match r3 with
          | '+' :: r4 => .ok (sign * mantissa * (10 : Rat) ^ (decValue r4))
          | '-' :: r4 => .ok (sign * mantissa / ((10 : Rat) ^ (decValue r4)))
          | r4 => .ok (sign * mantissa * (10 : Rat) ^ (decValue r4))
        else .error (.valueError s)
    applyExp rest2
  | _ => .error (.valueError s)

/-- Embedding of Sense._convertValue (sense.py lines 85-105): None or the empty
string give None; otherwise first-match classification against the integer,
float and boolean matchers, falling back to the text itself.  The boolean
branch is embedded exactly as written in the source: it returns 1 when the
matched STRING is truthy (nonempty) and 0 otherwise, so it never consults
whether the literal says true or false. -/
def convertValue (value : Option String) : Except PyErr (Option PyValue) :=
  match value with
  | none => .ok none
  | some s =>
    if s = "" then .ok none
    else if intMatcher s then do
      let i ← pyInt s
      .ok (some (.int i))
    else if floatMatcher s then do
      let q ← pyFloat s
      .ok (some (.float q))
    else if boolMatcher s then
      .ok (some (.int (if s != "" then 1 else 0)))
    else .ok (some (.str s))

/-- A sense / sense-act (sense.py).  The stored value is the converted literal;
the predicate defaults to equality at construction. -/
structure Sense where
  name : String
  value : Option PyValue
  pred : String
deriving DecidableEq, Repr

/-- Embedding of Sense.fire (sense.py lines 54-83); env supplies the sensor
read of the named capability. -/
def Sense.fire (env : String → PyValue) (s : Sense) : Bool :=
  let result := env s.name
  match s.value with
  | none => pyTruthy result
  | some v =>
    if s.pred = "==" then pyEq result v
    else if s.pred = "!=" then !pyEq result v
    else if s.pred = "<=" then pyLe result v
    else if s.pred = ">=" then pyGe result v
    else if s.pred = ">" then pyGt result v
    else if s.pred = "<" then pyLt result v
    else pyTruthy result

/-- A trigger: a conjunction of senses (sense.py lines 108-140). -/
structure Trigger where
  senses : List Sense
deriving DecidableEq, Repr

/-- Embedding of Trigger.fire: true exactly when every sense fires. -/
def Trigger.fire (env : String → PyValue) (t : Trigger) : Bool :=
  t.senses.all (Sense.fire env)

/-- Reference to a plan node, standing in for a Python object reference.
Competences and action patterns are identified by the index of the single
instance the plan builder created for their name; actions are stateless thin
wrappers and are identified by name (action.py copy returns self). -/
inductive NodeRef where
  | action (name : String)
  | comp (id : Nat)
  | ap (id : Nat)
  | driveCollection
deriving DecidableEq, Repr

/-- Modelled from the spec: FireResult lives in element.py, a module the
sources use but which is absent from the tree.  The spec describes a fire result as
a value carrying a continue flag and an optional handoff target, such as the
sentinel (continue=true, handoff=none). -/
structure FireResult where
  continueExecution : Bool
  nextElement : Option NodeRef
deriving DecidableEq, Repr

/-! Drive layer (drive.py). -/

/-- State of a DriveElement (drive.py lines 147-251).  deId is the identity of
the instance: the builder allocates a fresh one per drive-element descriptor,
standing in for Python object identity. -/
structure DriveElement where
  name : String
  trigger : Option Trigger
  root : NodeRef
  element : NodeRef
  maxFreq : Option Int
  lastFired : Int
  deId : Nat
deriving DecidableEq, Repr

/-- Embedding of DriveElement.reset. -/
def DriveElement.reset (de : DriveElement) : DriveElement :=
  { de with element := de.root, lastFired := -100000 }

/-- Python 2 comparison v < x where v may be None (None is below every int). -/
def pyLtNoneInt (v : Option Int) (x : Int) : Bool :=
  match v with
  | none => true
  | some i => i < x

/-- Embedding of DriveElement.isReady (drive.py lines 186-207).  The trigger
is dereferenced unconditionally: a None trigger raises AttributeError.  A true
result commits the last-fired timestamp to the given one. -/
def DriveElement.isReady (env : String → PyValue) (ts : Int) (de : DriveElement) :
    Except PyErr (Bool × DriveElement) :=
  match de.trigger with
  | none => .error (.attributeError "NoneType object has no attribute fire")
  | some t =>
    if t.fire env then
      if pyLtNoneInt de.maxFreq 0 || (match de.maxFreq with
          | none => true
          | some m => ts - de.lastFired ≥ m) then
        .ok (true, { de with lastFired := ts })
      else .ok (false, de)
    else .ok (false, de)

/-- Embedding of DriveElement.fire (drive.py lines 209-244), parametrised by
the result of firing the cursor element (competence or action pattern); when
the cursor is an Action the child result is not consulted (the action is fired
for its external effect only). -/
def DriveElement.fire (childResult : FireResult) (de : DriveElement) : DriveElement :=
  match de.element with
  | .action _ => { de with element := de.root }
  | _ =>
    if childResult.continueExecution then
      match childResult.nextElement with
      | some n => { de with element := n }
      | none => de
    else
      { de with element := de.root }

/-- Embedding of DriveElement.copy (drive.py lines 246-251): always raises. -/
def DriveElement.copy (_de : DriveElement) : Except PyErr DriveElement :=
  .error (.notImplementedError "DriveElement.copy() is never supposed to be called")

/-! Competence layer (competence.py). -/

/-- State of a CompetenceElement (competence.py lines 180-265).  The element
field holds the triggerable the builder resolved; the builder never stores
None there (getTriggerable either returns a node or raises), which the total
NodeRef type records. -/
structure CompetenceElement where
  name : String
  trigger : Option Trigger
  element : NodeRef
  maxRetries : Int
  retries : Int
deriving DecidableEq, Repr

/-- Embedding of CompetenceElement.reset (competence.py lines 209-212). -/
def CompetenceElement.reset (ce : CompetenceElement) : CompetenceElement :=
  { ce with retries := 0 }

/-- Embedding of CompetenceElement.isReady (competence.py lines 214-232).  The
timestamp argument is ignored as in the source; a None trigger raises; a true
result consumes one retry unit. -/
def CompetenceElement.isReady (env : String → PyValue) (_ts : Int) (ce : CompetenceElement) :
    Except PyErr (Bool × CompetenceElement) :=
  match ce.trigger with
  | none => .error (.attributeError "NoneType object has no attribute fire")
  | some t =>
    if t.fire env then
      if ce.maxRetries < 0 || ce.retries ≤ ce.maxRetries then
        .ok (true, { ce with retries := ce.retries + 1 })
      else .ok (false, ce)
    else .ok (false, ce)

/-- Embedding of CompetenceElement.fire (competence.py lines 234-252): an
Action target is fired and yields stop with no handoff; any other target is
handed off with the continue flag set. -/
def CompetenceElement.fire (ce : CompetenceElement) : FireResult :=
  match ce.element with
  | .action _ => { continueExecution := false, nextElement := none }
  | e => { continueExecution := true, nextElement := some e }

/-- The distinguished result CompetencePriorityElement.fire returns when no
element is ready (competence.py line 159). -/
def cpeSentinel : FireResult := { continueExecution := true, nextElement := none }

/-- Loop body of CompetencePriorityElement.fire (competence.py lines 140-159):
scan the elements in order, fire the first ready one and return its result;
the sentinel if none is ready.  Readiness checks thread element state. -/
def cpeFireAux (env : String → PyValue) :
    List CompetenceElement → Except PyErr (FireResult × List CompetenceElement)
  | [] => .ok (cpeSentinel, [])
  | ce :: rest => do
    let (r, ce') ← ce.isReady env 0
    if r then
      .ok (ce'.fire, ce' :: rest)
    else do
      let (res, rest') ← cpeFireAux env rest
      .ok (res, ce' :: rest')

/-- State of a CompetencePriorityElement (competence.py lines 112-177). -/
structure CompetencePriorityElement where
  name : String
  elements : List CompetenceElement
deriving DecidableEq, Repr

/-- Embedding of CompetencePriorityElement.fire. -/
def CompetencePriorityElement.fire (env : String → PyValue) (cpe : CompetencePriorityElement) :
    Except PyErr (FireResult × CompetencePriorityElement) := do
  let (res, es) ← cpeFireAux env cpe.elements
  .ok (res, { cpe with elements := es })

/-- A Competence node (competence.py lines 17-109): priority elements and an
optional goal.  One instance exists per plan competence name (stub phase). -/
structure Competence where
  name : String
  goal : Option Trigger
  elements : List CompetencePriorityElement
deriving DecidableEq, Repr

/-! Action pattern (action_pattern.py). -/

/-- An element of an action pattern: an action, a sense, or (only as last
element, enforced by the builder) a competence. -/
inductive APElem where
  | action (name : String)
  | sense (s : Sense)
  | comp (id : Nat)
deriving DecidableEq, Repr

/-- State of an ActionPattern (action_pattern.py): the fixed element sequence
and the mutable cursor. -/
structure ActionPattern where
  name : String
  elements : List APElem
  elementIdx : Nat
deriving DecidableEq, Repr

/-- Embedding of ActionPattern.reset. -/
def ActionPattern.reset (ap : ActionPattern) : ActionPattern :=
  { ap with elementIdx := 0 }

/-- Shared tail of the Action/Sense branch of ActionPattern.fire: on failure
reset the cursor and stop; on success advance, stopping with a reset cursor
when the end of the sequence is reached. -/
def apLeafStep (fired : Bool) (ap : ActionPattern) : FireResult × ActionPattern :=
  if !fired then ({ continueExecution := false, nextElement := none }, { ap with elementIdx := 0 })
  else
    let idx := ap.elementIdx + 1
    if ap.elements.length ≤ idx then
      ({ continueExecution := false, nextElement := none }, { ap with elementIdx := 0 })
    else
      ({ continueExecution := true, nextElement := none }, { ap with elementIdx := idx })

/-- Embedding of ActionPattern.fire (action_pattern.py lines 45-83).  actEnv
supplies the success of firing an action, senseEnv the sensor readings; an
out-of-range cursor raises as Python list indexing would. -/
def ActionPattern.fire (actEnv : String → Bool) (senseEnv : String → PyValue)
    (ap : ActionPattern) : Except PyErr (FireResult × ActionPattern) :=
  match ap.elements[ap.elementIdx]? with
  | none => .error (.indexError "list index out of range")
  | some el =>
    match el with
    | .action n => .ok (apLeafStep (actEnv n) ap)
    | .sense s => .ok (apLeafStep (s.fire senseEnv) ap)
    | .comp c =>
      .ok ({ continueExecution := true, nextElement := some (.comp c) },
           { ap with elementIdx := 0 })

/-! Drive priority elements, the drive collection and the agent step
(drive.py lines 17-144, agent.py lines 142-166). -/

/-- State of a DrivePriorityElement (drive.py lines 93-144). -/
structure DrivePriorityElement where
  name : String
  elements : List DriveElement
deriving DecidableEq, Repr

/-- Embedding of DrivePriorityElement.copy: always raises. -/
def DrivePriorityElement.copy (_pe : DrivePriorityElement) : Except PyErr DrivePriorityElement :=
  .error (.notImplementedError "DrivePriorityElement.copy() is never supposed to be called")

/-- Loop body of DrivePriorityElement.fire (drive.py lines 121-137): fire the
first ready drive element and report success (some result); none if no element
was ready.  childFire supplies the fire result of the cursor element fired by
DriveElement.fire. -/
def dpeFireAux (env : String → PyValue) (ts : Int) (childFire : NodeRef → FireResult) :
    List DriveElement → Except PyErr (Option FireResult × List DriveElement)
  | [] => .ok (none, [])
  | de :: rest => do
    let (r, de') ← de.isReady env ts
    if r then
      let de2 := de'.fire (childFire de'.element)
      .ok (some { continueExecution := false, nextElement := none }, de2 :: rest)
    else do
      let (res, rest') ← dpeFireAux env ts childFire rest
      .ok (res, de' :: rest')

/-- Embedding of DrivePriorityElement.fire. -/
def DrivePriorityElement.fire (env : String → PyValue) (ts : Int)
    (childFire : NodeRef → FireResult) (pe : DrivePriorityElement) :
    Except PyErr (Option FireResult × DrivePriorityElement) := do
  let (res, es) ← dpeFireAux env ts childFire pe.elements
  .ok (res, { pe with elements := es })

/-- State of the DriveCollection (drive.py lines 17-90). -/
structure DriveCollection where
  name : String
  goal : Option Trigger
  elements : List DrivePriorityElement
deriving DecidableEq, Repr

/-- Embedding of DriveCollection.copy: always raises. -/
def DriveCollection.copy (_dc : DriveCollection) : Except PyErr DriveCollection :=
  .error (.notImplementedError "DriveCollection.copy() is never supposed to be called")

/-- Loop body of DriveCollection.fire (drive.py lines 76-81): try the priority
elements in order, reporting a drive fired on the first success. -/
def dcFireAux (env : String → PyValue) (ts : Int) (childFire : NodeRef → FireResult) :
    List DrivePriorityElement → Except PyErr (FireResult × List DrivePriorityElement)
  | [] => .ok ({ continueExecution := false, nextElement := none }, [])
  | pe :: rest => do
    let (res, pe') ← pe.fire env ts childFire
    match res with
    | some _ => .ok ({ continueExecution := true, nextElement := none }, pe' :: rest)
    | none => do
      let (r, rest') ← dcFireAux env ts childFire rest
      .ok (r, pe' :: rest')

/-- Embedding of DriveCollection.fire (drive.py lines 50-83): goal reached
gives FireResult(0, self); a fired drive gives FireResult(1, None); otherwise
FireResult(0, None). -/
def DriveCollection.fire (env : String → PyValue) (ts : Int)
    (childFire : NodeRef → FireResult) (dc : DriveCollection) :
    Except PyErr (FireResult × DriveCollection) :=
  match dc.goal with
  | some g =>
    if g.fire env then
      .ok ({ continueExecution := false, nextElement := some .driveCollection }, dc)
    else do
      let (r, es) ← dcFireAux env ts childFire dc.elements
      .ok (r, { dc with elements := es })
  | none => do
    let (r, es) ← dcFireAux env ts childFire dc.elements
    .ok (r, { dc with elements := es })

/-- Drive collection results (agent.py lines 21-23). -/
def DRIVE_FOLLOWED : Int := 0

def DRIVE_WON : Int := 1

def DRIVE_LOST : Int := -1

/-- Agent state for the stepped-timer discipline: drive collection plus the
logical-step timer value (timer.py SteppedTimer: starts at 0, +1 per loopEnd,
loopWait is a no-op). -/
structure AgentState where
  timer : Int
  dc : DriveCollection
deriving DecidableEq, Repr

/-- Embedding of Agent.followDrive (agent.py lines 142-166) under the stepped
timer: loopWait does nothing, the collection fires at the current timer value,
loopEnd advances the timer by one, and the fire result is decoded to
DRIVE_WON / DRIVE_FOLLOWED / DRIVE_LOST. -/
def followDrive (env : String → PyValue) (childFire : NodeRef → FireResult)
    (ag : AgentState) : Except PyErr (Int × AgentState) := do
  let (result, dc') ← ag.dc.fire env ag.timer childFire
  let ag' : AgentState := { timer := ag.timer + 1, dc := dc' }
  if result.continueExecution then
    .ok (DRIVE_FOLLOWED, ag')
  else
    match result.nextElement with
    | some _ => .ok (DRIVE_WON, ag')
    | none => .ok (DRIVE_LOST, ag')

/-! Plan builder (planbuilder.py).  The parser hands the builder descriptor
tuples; they are embedded as the structures below.  Python dictionaries of
competences / action patterns are embedded as association lists in insertion
order; the index of a name in the stub list is the identity of the single node
instance created for it. -/

/-- A goal/trigger item: a sense-act given by its name, or a full sense given
by the triple of name, optional literal value and optional predicate. -/
inductive SenseSpec where
  | act (name : String)
  | full (name : String) (value : Option String) (pred : Option String)
deriving DecidableEq, Repr

/-- Drive element descriptor (name, trigger, triggerable, frequency). -/
structure DriveElementSpec where
  name : String
  trigger : Option (List SenseSpec)
  triggerable : String
  freq : Option Int
deriving DecidableEq, Repr

/-- Competence element descriptor (name, trigger, triggerable, retries). -/
structure CompetenceElementSpec where
  name : String
  trigger : Option (List SenseSpec)
  triggerable : String
  retries : Int
deriving DecidableEq, Repr

/-- Competence descriptor (name, time, goal, priorities). -/
structure CompetenceSpec where
  name : String
  time : Option Int
  goal : Option (List SenseSpec)
  priorities : List (List CompetenceElementSpec)
deriving DecidableEq, Repr

/-- An action pattern element descriptor: a plain name or a full sense. -/
inductive APElemSpec where
  | name (n : String)
  | fullSense (name : String) (value : Option String) (pred : Option String)
deriving DecidableEq, Repr

/-- Action pattern descriptor (name, time, elements). -/
structure APSpec where
  name : String
  time : Option Int
  elements : List APElemSpec
deriving DecidableEq, Repr

/-- Drive collection descriptor (type, name, goal, priorities). -/
structure DCSpec where
  dctype : String
  name : String
  goal : Option (List SenseSpec)
  priorities : List (List DriveElementSpec)
deriving DecidableEq, Repr

/-- The PlanBuilder accumulation state (planbuilder.py lines 20-138). -/
structure PlanBuilderRep where
  docstring : Option (List String)
  drivecollection : Option DCSpec
  actionpatterns : List (String × APSpec)
  competences : List (String × CompetenceSpec)
deriving DecidableEq, Repr

/-- The empty plan builder. -/
def PlanBuilderRep.empty : PlanBuilderRep :=
  { docstring := none, drivecollection := none, actionpatterns := [], competences := [] }

/-- Embedding of PlanBuilder.addCompetence with its duplicate checks. -/
def PlanBuilderRep.addCompetence (pb : PlanBuilderRep) (c : CompetenceSpec) :
    Except PyErr PlanBuilderRep :=
  if (pb.competences.lookup c.name).isSome then
    .error (.nameError "more than one competence with this name")
  else if (pb.actionpatterns.lookup c.name).isSome then
    .error (.nameError "competence name clashes with action pattern of same name")
  else .ok { pb with competences := pb.competences ++ [(c.name, c)] }

/-- Embedding of PlanBuilder.addActionPattern with its duplicate checks. -/
def PlanBuilderRep.addActionPattern (pb : PlanBuilderRep) (ap : APSpec) :
    Except PyErr PlanBuilderRep :=
  if (pb.actionpatterns.lookup ap.name).isSome then
    .error (.nameError "more than one action pattern with this name")
  else if (pb.competences.lookup ap.name).isSome then
    .error (.nameError "action pattern name clashes with competence of same name")
  else .ok { pb with actionpatterns := pb.actionpatterns ++ [(ap.name, ap)] }

/-- The capability registry (behaviour_dict.py), reduced to the name sets the
builder consults; the callables are supplied at runtime through the
environments of the fire functions. -/
structure BehaviourDict where
  actions : List String
  senses : List String
deriving DecidableEq, Repr

/-- Embedding of the Sense constructor (sense.py lines 19-52): the sense must
be registered (the behaviour dictionary lookup raises NameError otherwise),
the literal is converted at construction, the predicate defaults to equality
when absent or falsy. -/
def mkSense (bd : BehaviourDict) (name : String) (value : Option String)
    (pred : Option String) : Except PyErr Sense :=
  if name ∈ bd.senses then do
    let v ← convertValue value
    let p := match pred with
      | none => "=="
      | some s => if s = "" then "==" else s
    .ok { name := name, value := v, pred := p }
  else .error (.nameError "sense not provided by any behaviour")

/-- Embedding of the Action constructor (action.py lines 10-30): the action
must be registered, otherwise the dictionary lookup raises NameError. -/
def mkAction (bd : BehaviourDict) (name : String) : Except PyErr NodeRef :=
  if name ∈ bd.actions then .ok (.action name)
  else .error (.nameError "action not provided by any behaviour")

/-- Builds the sense objects of a goal or trigger list
(planbuilder.py lines 441-447). -/
def buildSenseList (bd : BehaviourDict) : List SenseSpec → Except PyErr (List Sense)
  | [] => .ok []
  | s :: rest => do
    let sv ← match s with
      | .act n => mkSense bd n none none
      | .full n v p => mkSense bd n v p
    let rest' ← buildSenseList bd rest
    .ok (sv :: rest')

/-- Embedding of PlanBuilder._buildGoal (planbuilder.py lines 421-447): an
absent or empty sense list yields no trigger object at all (None); otherwise a
Trigger wrapping the built senses.  _buildTrigger is the same function. -/
def buildGoal (bd : BehaviourDict) (goal : Option (List SenseSpec)) :
    Except PyErr (Option Trigger) :=
  match goal with
  | none => .ok none
  | some [] => .ok none
  | some senses => do
    let l ← buildSenseList bd senses
    .ok (some { senses := l })

/-- Embedding of PlanBuilder._getTriggerable (planbuilder.py lines 500-546):
first try to create an Action; if that name is not a registered action, look
the name up in the competence map and then in the action pattern map,
returning the stored instance; a name that is both an action and a mapped
node, or nowhere at all, raises NameError. -/
def getTriggerable (bd : BehaviourDict) (comps : List (String × Nat))
    (aps : List (String × Nat)) (name : String) : Except PyErr NodeRef :=
  if name ∈ bd.actions then
    if (comps.lookup name).isSome || (aps.lookup name).isSome then
      .error (.nameError "name of action also held by other competence or action pattern")
    else .ok (.action name)
  else
    match comps.lookup name with
    | some i => .ok (.comp i)
    | none =>
      match aps.lookup name with
      | some i => .ok (.ap i)
      | none => .error (.nameError "no action, competence or action pattern with this name")

/-- One pass of PlanBuilder._checkNameClashes over a list of plan node names. -/
def checkNamesAux (bd : BehaviourDict) : List String → Except PyErr Unit
  | [] => .ok ()
  | n :: rest =>
    if n ∈ bd.actions then .error (.nameError "name clashes with action of same name")
    else if n ∈ bd.senses then .error (.nameError "name clashes with sense of same name")
    else checkNamesAux bd rest

/-- Embedding of PlanBuilder._checkNameClashes (planbuilder.py lines 172-196). -/
def checkNameClashes (bd : BehaviourDict) (pb : PlanBuilderRep) : Except PyErr Unit := do
  checkNamesAux bd (pb.competences.map Prod.fst)
  checkNamesAux bd (pb.actionpatterns.map Prod.fst)

/-- Embedding of PlanBuilder._buildCompetenceStubs (planbuilder.py lines
274-291): one Competence instance per plan competence name, with its goal
built and an empty element list; returns the stubs and the name-to-instance
map. -/
def buildCompetenceStubsAux (bd : BehaviourDict) :
    List (String × CompetenceSpec) → Nat → Except PyErr (List Competence × List (String × Nat))
  | [], _ => .ok ([], [])
  | (n, spec) :: rest, i => do
    let goal ← buildGoal bd spec.goal
    let (cs, m) ← buildCompetenceStubsAux bd rest (i + 1)
    .ok ({ name := n, goal := goal, elements := [] } :: cs, (n, i) :: m)

/-- Embedding of PlanBuilder._buildActionPatternStubs (planbuilder.py lines
293-309): one ActionPattern instance per name, with an empty element list. -/
def buildAPStubsAux :
    List (String × APSpec) → Nat → List ActionPattern × List (String × Nat)
  | [], _ => ([], [])
  | (n, _) :: rest, i =>
    let (ss, m) := buildAPStubsAux rest (i + 1)
    ({ name := n, elements := [], elementIdx := 0 } :: ss, (n, i) :: m)

/-- Embedding of PlanBuilder._buildCompetenceElement (planbuilder.py lines
391-419): trigger built from the descriptor, triggerable resolved through
_getTriggerable, retry counter starting at zero. -/
def buildCompetenceElement (bd : BehaviourDict) (comps aps : List (String × Nat))
    (e : CompetenceElementSpec) : Except PyErr CompetenceElement := do
  let trig ← buildGoal bd e.trigger
  let t ← getTriggerable bd comps aps e.triggerable
  .ok { name := e.name, trigger := trig, element := t, maxRetries := e.retries, retries := 0 }

/-- Embedding of PlanBuilder._buildCompetences (planbuilder.py lines 311-341):
fills each competence stub with its priority elements (setElements also resets
the fresh elements, whose retry counters are already zero). -/
def buildCompetencesAux (bd : BehaviourDict) (comps aps : List (String × Nat)) :
    List (Competence × CompetenceSpec) → Except PyErr (List Competence)
  | [] => .ok []
  | (stub, spec) :: rest => do
    let pes ← spec.priorities.mapM (fun pe => do
      let es ← pe.mapM (buildCompetenceElement bd comps aps)
      pure ({ name := stub.name, elements := es } : CompetencePriorityElement))
    let rest' ← buildCompetencesAux bd comps aps rest
    .ok ({ stub with elements := pes } :: rest')

/-- Resolution of one action pattern element (planbuilder.py lines 364-388):
a registered sense name becomes a sense-act, a non-string descriptor becomes a
full sense, and any other name goes through _getTriggerable — with the
competence map only passed for the last element of the pattern.  The action
pattern map is never passed, so getTriggerable can only return an action or a
competence here; the remaining branch is unreachable. -/
def buildAPElemCore (bd : BehaviourDict) (comps : List (String × Nat)) (e : APElemSpec) :
    Except PyErr APElem :=
  match e with
  | .fullSense n v p => do
    let s ← mkSense bd n v p
    .ok (.sense s)
  | .name n =>
    if n ∈ bd.senses then do
      let s ← mkSense bd n none none
      .ok (.sense s)
    else
      match getTriggerable bd comps [] n with
      | .ok (.action a) => .ok (.action a)
      | .ok (.comp i) => .ok (.comp i)
      | .ok _ => .error (.nameError "unreachable: getTriggerable with empty pattern map")
      | .error err => .error err

/-- Embedding of PlanBuilder._buildActionPatterns (planbuilder.py lines
343-389): all but the last element resolve without the competence map, the
last may also be a competence; an empty element list raises as the Python
negative index would. -/
def buildActionPatternsAux (bd : BehaviourDict) (comps : List (String × Nat)) :
    List (ActionPattern × APSpec) → Except PyErr (List ActionPattern)
  | [] => .ok []
  | (stub, spec) :: rest =>
    match spec.elements.getLast? with
    | none => .error (.indexError "list index out of range")
    | some last => do
      let front ← spec.elements.dropLast.mapM (buildAPElemCore bd [])
      let lastE ← buildAPElemCore bd comps last
      let rest' ← buildActionPatternsAux bd comps rest
      .ok ({ stub with elements := front ++ [lastE] } :: rest')

/-- The timer discipline selected by the drive collection tag
(planbuilder.py lines 222-236, timer.py). -/
inductive TimerKind where
  | stepped
  | realTime (loopFreq : Int)
deriving DecidableEq, Repr

/-- Embedding of PlanBuilder._buildDriveElement (planbuilder.py lines
249-271): a freshly allocated DriveElement (deId is the allocation counter,
standing in for the identity of the new Python object), with the cursor at the
resolved root and the last-fired timestamp at its initial value. -/
def buildDriveElement (bd : BehaviourDict) (comps aps : List (String × Nat))
    (counter : Nat) (e : DriveElementSpec) : Except PyErr (DriveElement × Nat) := do
  let trig ← buildGoal bd e.trigger
  let t ← getTriggerable bd comps aps e.triggerable
  .ok ({ name := e.name, trigger := trig, root := t, element := t,
         maxFreq := e.freq, lastFired := -100000, deId := counter }, counter + 1)

/-- Builds the drive elements of one priority block, threading the allocation
counter. -/
def buildDriveElems (bd : BehaviourDict) (comps aps : List (String × Nat)) :
    List DriveElementSpec → Nat → Except PyErr (List DriveElement × Nat)
  | [], c => .ok ([], c)
  | e :: rest, c => do
    let (de, c2) ← buildDriveElement bd comps aps c e
    let (des, c3) ← buildDriveElems bd comps aps rest c2
    .ok (de :: des, c3)

/-- Builds the drive priority elements (planbuilder.py lines 238-246), one per
descriptor block, each freshly constructed. -/
def buildDrivePriorities (bd : BehaviourDict) (comps aps : List (String × Nat))
    (dcname : String) :
    List (List DriveElementSpec) → Nat → Except PyErr (List DrivePriorityElement × Nat)
  | [], c => .ok ([], c)
  | pe :: rest, c => do
    let (des, c2) ← buildDriveElems bd comps aps pe c
    let (pes, c3) ← buildDrivePriorities bd comps aps dcname rest c2
    .ok ({ name := dcname, elements := des } :: pes, c3)

/-- Embedding of PlanBuilder._buildDriveCollection (planbuilder.py lines
198-247): the tag selects the timer (SDC/DC stepped, SRDC/RDC real-time at a
20 ms period, anything else a TypeError), then the goal and the priority
elements are built and the single DriveCollection is returned. -/
def buildDriveCollection (bd : BehaviourDict) (comps aps : List (String × Nat))
    (dc : DCSpec) : Except PyErr (TimerKind × DriveCollection) := do
  let timer ←
    if dc.dctype = "SDC" then Except.ok TimerKind.stepped
    else if dc.dctype = "SRDC" then Except.ok (TimerKind.realTime 20)
    else if dc.dctype = "DC" then Except.ok TimerKind.stepped
    else if dc.dctype = "RDC" then Except.ok (TimerKind.realTime 20)
    else Except.error (.typeError "drive collection type not supported")
  let goal ← buildGoal bd dc.goal
  let (pes, _) ← buildDrivePriorities bd comps aps dc.name dc.priorities 0
  .ok (timer, { name := dc.name, goal := goal, elements := pes })

/-- The outcome of a successful build: the selected timer, the root drive
collection, and the single competence / action pattern instances the stub
phase allocated (index = identity). -/
structure BuiltPlan where
  timer : TimerKind
  dc : DriveCollection
  comps : List Competence
  aps : List ActionPattern
deriving DecidableEq, Repr

/-- Embedding of PlanBuilder.build (planbuilder.py lines 140-170): clash
check, stub creation, fill passes, then drive collection construction.  A
missing drive collection descriptor raises as the Python subscription of None
would. -/
def PlanBuilderRep.build (bd : BehaviourDict) (pb : PlanBuilderRep) :
    Except PyErr BuiltPlan := do
  checkNameClashes bd pb
  let (compStubs, compMap) ← buildCompetenceStubsAux bd pb.competences 0
  let (apStubs, apMap) := buildAPStubsAux pb.actionpatterns 0
  let comps ← buildCompetencesAux bd compMap apMap (compStubs.zip (pb.competences.map Prod.snd))
  let aps ← buildActionPatternsAux bd compMap (apStubs.zip (pb.actionpatterns.map Prod.snd))
  match pb.drivecollection with
  | none => .error (.typeError "NoneType object is unsubscriptable")
  | some dcspec => do
    let (timer, dc) ← buildDriveCollection bd compMap apMap dcspec
    .ok { timer := timer, dc := dc, comps := comps, aps := aps }

/-! Lexer (lapparser.py lines 104-287).  Tokens carry the token kind and the
matched text.  Line numbers only feed diagnostic strings and are not tracked
in the embedding; error values carry the message text. -/

/-- A token of the .lap language. -/
structure Token where
  tok : String
  value : String
deriving DecidableEq, Repr

/-- The preprocessing substitution: everything from a hash or semicolon to the
end of its line is removed (lapparser.py line 128).  The flag records whether
the scan is inside a comment run; the newline itself is kept. -/
def stripCommentsAux : Bool → List Char → List Char
  | _, [] => []
  | false, c :: rest =>
    if c = '#' || c = ';' then stripCommentsAux true rest
    else c :: stripCommentsAux false rest
  | true, c :: rest =>
    if c = '\n' then c :: stripCommentsAux false rest
    else stripCommentsAux true rest

/-- Comment stripping from the start of the input. -/
def stripComments (s : List Char) : List Char := stripCommentsAux false s

/-- The separating characters of the lexer (lapparser.py line 143). -/
def isSeparating (c : Char) : Bool :=
  c = ' ' || c = '(' || c = ')' || c = '\n' || c = '\r' || c = '\t'

/-- The double quote character. -/
def dq : Char := Char.ofNat 34

/-- The apostrophe character. -/
def sq : Char := Char.ofNat 39

/-- Full-token match for quoted comments (lapparser.py line 137): a double
quote, any run of non-quote characters, and a closing double quote. -/
def matchCommentTok (s : List Char) : Option (List Char × List Char) :=
  match s with
  | [] => none
  | c :: rest =>
    if c = dq then
      let body := rest.takeWhile (fun d => d ≠ dq)
      match rest.dropWhile (fun d => d ≠ dq) with
      | d :: rest3 => some (c :: (body ++ [d]), rest3)
      | [] => none
    else none

/-- ASCII lowercase of a character, for the (?i) reserved word patterns. -/
def lowerChar (c : Char) : Char :=
  if decide ('A' ≤ c) && decide (c ≤ 'Z') then Char.ofNat (c.toNat + 32) else c

/-- Case-insensitive string equality, for the (?i) reserved word patterns. -/
def ciEq (s t : String) : Bool := s.toList.map lowerChar = t.toList.map lowerChar

/-- The ordered alternatives of the predicate pattern (lapparser.py line
175).  Python regex alternation is ordered and unanchored at the right, so the
match group is the first alternative that is a prefix of the candidate; the
lexer then requires the group to cover the whole candidate. -/
def predAlts : List String := ["==", "=", "!=", "<", ">", "<=", ">="]

def predMatchTok (s : String) : Bool :=
  match predAlts.find? (fun a => List.isPrefixOf a.toList s.toList) with
  | some a => a = s
  | none => false

/-- Name pattern (?i)[a-z][a-z0-9_\-]* as a full-string matcher. -/
def nameChars : List Char → Bool
  | [] => false
  | c :: r => c.isAlpha && r.all (fun d => d.isAlpha || d.isDigit || d = '_' || d = '-')

/-- NUMINT pattern as a full-string matcher. -/
def numIntMatcher (s : String) : Bool :=
  match s.toList with
  | '-' :: r => digits1 r
  | r => digits1 r

/-- STRINGVALUE pattern: an optional apostrophe followed by a name. -/
def stringValueMatcher (s : String) : Bool :=
  match s.toList with
  | [] => false
  | c :: r => if c = sq then nameChars r else nameChars (c :: r)

/-- The priority-ordered token table applied to a separator-delimited run
(lapparser.py lines 156-180): the first pattern whose match covers the whole
run wins.  The NUMFLOAT pattern is the same regex as the float matcher of
sense.py. -/
def tokenFor (s : String) : Option Token :=
  if s = "AP" then some ⟨"AP", s⟩
  else if s = "C" then some ⟨"C", s⟩
  else if s = "DC" then some ⟨"DC", s⟩
  else if s = "RDC" then some ⟨"RDC", s⟩
  else if s = "SDC" then some ⟨"SDC", s⟩
  else if s = "SRDC" then some ⟨"SRDC", s⟩
  else if s = "nil" then some ⟨"NIL", s⟩
  else if ciEq s "drives" then some ⟨"DRIVES", s⟩
  else if ciEq s "elements" then some ⟨"ELEMENTS", s⟩
  else if ciEq s "trigger" then some ⟨"TRIGGER", s⟩
  else if ciEq s "goal" then some ⟨"GOAL", s⟩
  else if ciEq s "hours" then some ⟨"HOURS", s⟩
  else if ciEq s "minutes" then some ⟨"MINUTES", s⟩
  else if ciEq s "seconds" then some ⟨"SECONDS", s⟩
  else if ciEq s "hz" then some ⟨"HZ", s⟩
  else if ciEq s "pm" then some ⟨"PM", s⟩
  else if ciEq s "none" then some ⟨"NONE", s⟩
  else if ciEq s "documentation" then some ⟨"DOCUMENTATION", s⟩
  else if predMatchTok s then some ⟨"PREDICATE", s⟩
  else if floatMatcher s then some ⟨"NUMFLOAT", s⟩
  else if numIntMatcher s then some ⟨"NUMINT", s⟩
  else if nameChars s.toList then some ⟨"NAME", s⟩
  else if stringValueMatcher s then some ⟨"STRINGVALUE", s⟩
  else none

/-- Embedding of LAPLexer.token (lapparser.py lines 209-271): full tokens
first, then the separating characters (parentheses become tokens, the rest is
skipped), then the token table on the run up to the next separator; an illegal
character is reported and skipped, lexing continues. -/
def lexToken : List Char → Option Token × List Char
  | [] => (none, [])
  | c :: rest =>
    match matchCommentTok (c :: rest) with
    | some (tokStr, rest2) => (some ⟨"COMMENT", String.mk tokStr⟩, rest2)
    | none =>
      if isSeparating c then
        if c = '(' then (some ⟨"LPAREN", "("⟩, rest)
        else if c = ')' then (some ⟨"RPAREN", ")"⟩, rest)
        else lexToken rest
      else
        let run := (c :: rest).takeWhile (fun d => !isSeparating d)
        let rest2 := (c :: rest).dropWhile (fun d => !isSeparating d)
        match tokenFor (String.mk run) with
        | some t => (some t, rest2)
        | none => lexToken rest

/-- Repeated tokenisation; the fuel bounds the number of tokens, each of which
consumes at least one character. -/
def lexAllAux : Nat → List Char → List Token
  | 0, _ => []
  | fuel + 1, s =>
    match lexToken s with
    | (none, _) => []
    | (some t, rest) => t :: lexAllAux fuel rest

/-- Tokenises a whole input string, after comment stripping. -/
def lexAll (s : String) : List Token :=
  lexAllAux (s.length + 1) (stripComments s.toList)

/-! Recursive descent LAP language analysis (lapparser.py lines 300-1113).
The token stream is a list whose head is the current token; consuming mirrors
nextToken.  Every entry point returns the parsed value and the remaining
stream, or a ParseError; the source raises ParseError on an absent current
token before any comparison, which the empty-list cases mirror.  Loops carry
fuel bounded by the token count; outOfFuel is unreachable on finite input. -/

/-- The EOF failure of LAPParser.match. -/
def eofErr {α : Type} : Except PyErr α := .error (.parseError "Unexpected End Of File (EOF)")

/-- Consume the current token when it has the given kind, failing with the
given message otherwise (the match / error / nextToken idiom of the source). -/
def expectTok (tk : String) (msg : String) (ts : List Token) : Except PyErr (String × List Token) :=
  match ts with
  | [] => eofErr
  | t :: rest => if t.tok = tk then .ok (t.value, rest) else .error (.parseError msg)

/-- LAPParser.match against a single kind, without consuming. -/
def peekIs (tk : String) (ts : List Token) : Except PyErr Bool :=
  match ts with
  | [] => eofErr
  | t :: _ => .ok (t.tok = tk)

/-- LAPParser.match against a set of kinds, without consuming. -/
def peekIn (tks : List String) (ts : List Token) : Except PyErr Bool :=
  match ts with
  | [] => eofErr
  | t :: _ => .ok (tks.contains t.tok)

/-- Embedding of LAPParser.opt_comment. -/
def pOptComment (ts : List Token) : Except PyErr (Unit × List Token) :=
  match ts with
  | [] => eofErr
  | t :: rest => if t.tok = "COMMENT" then .ok ((), rest) else .ok ((), ts)

/-- Embedding of LAPParser.predicate. -/
def pPredicate (ts : List Token) : Except PyErr (String × List Token) :=
  expectTok "PREDICATE" "Expected a valid sense predicate" ts

/-- Embedding of LAPParser.value: the raw token text of a numeric, name,
string value or nil token. -/
def pValue (ts : List Token) : Except PyErr (String × List Token) :=
  match ts with
  | [] => eofErr
  | t :: rest =>
    if ["NUMINT", "NUMFLOAT", "NAME", "STRINGVALUE", "NIL"].contains t.tok then .ok (t.value, rest)
    else .error (.parseError "Expected a valid sense value")

/-- Embedding of LAPParser.full_sense: a parenthesised sense name with an
optional value and an optional predicate. -/
def pFullSense (ts0 : List Token) : Except PyErr ((String × Option String × Option String) × List Token) := do
  let (_, ts) ← expectTok "LPAREN" "Expected ( to start full sense" ts0
  let (name, ts) ← expectTok "NAME" "Expected sense name" ts
  let rp ← peekIs "RPAREN" ts
  if rp then do
    let (_, ts) ← expectTok "RPAREN" "Expected ) to end full sense" ts
    .ok ((name, none, none), ts)
  else do
    let (v, ts) ← pValue ts
    let rp2 ← peekIs "RPAREN" ts
    if rp2 then do
      let (_, ts) ← expectTok "RPAREN" "Expected ) to end full sense" ts
      .ok ((name, some v, none), ts)
    else do
      let (p, ts) ← pPredicate ts
      let (_, ts) ← expectTok "RPAREN" "Expected ) to end full sense" ts
      .ok ((name, some v, some p), ts)

/-- Loop of LAPParser.senses: sense-act names and full senses until the
closing parenthesis, which stays unconsumed for the caller. -/
def pSensesLoop (fuel : Nat) (ts : List Token) : Except PyErr (List SenseSpec × List Token) :=
  match fuel with
  | 0 => .error .outOfFuel
  | fuel + 1 =>
    match ts with
    | [] => eofErr
    | t :: rest =>
      if t.tok = "RPAREN" then .ok ([], ts)
      else if t.tok = "NAME" then do
        let (l, ts2) ← pSensesLoop fuel rest
        .ok (.act t.value :: l, ts2)
      else if t.tok = "LPAREN" then do
        let ((n, v, p), ts2) ← pFullSense ts
        let (l, ts3) ← pSensesLoop fuel ts2
        .ok (.full n v p :: l, ts3)
      else .error (.parseError "Expected either a sense-act name or (")

/-- Embedding of LAPParser.senses: nil gives the empty list, otherwise a
parenthesised nonempty-or-empty run of senses. -/
def pSenses (fuel : Nat) (ts : List Token) : Except PyErr (List SenseSpec × List Token) :=
  match ts with
  | [] => eofErr
  | t :: rest =>
    if t.tok = "NIL" then .ok ([], rest)
    else if t.tok = "LPAREN" then do
      let (l, ts2) ← pSensesLoop fuel rest
      match ts2 with
      | [] => eofErr
      | _ :: ts3 => .ok (l, ts3)
    else .error (.parseError "Expected ( to start senses")

/-- Embedding of LAPParser.goal: an empty sense list is reported as no goal. -/
def pGoal (fuel : Nat) (ts0 : List Token) : Except PyErr (Option (List SenseSpec) × List Token) := do
  let (_, ts) ← expectTok "GOAL" "Expected goal" ts0
  let (l, ts) ← pSenses fuel ts
  let (_, ts) ← expectTok "RPAREN" "Expected ) as the end of a goal" ts
  .ok (if l.isEmpty then none else some l, ts)

/-- Embedding of LAPParser.trigger: an empty sense list is reported as no
trigger. -/
def pTrigger (fuel : Nat) (ts0 : List Token) : Except PyErr (Option (List SenseSpec) × List Token) := do
  let (_, ts) ← expectTok "TRIGGER" "Expected trigger" ts0
  let (l, ts) ← pSenses fuel ts
  let (_, ts) ← expectTok "RPAREN" "Expected ) as the end of a trigger" ts
  .ok (if l.isEmpty then none else some l, ts)

/-- Value of a NUMINT or NUMFLOAT token as an exact rational (Python float). -/
def ratOfNumString (s : String) : Rat :=
  let signCore : Rat × List Char :=
    match s.toList with
    | '-' :: r => (-1, r)
    | r => (1, r)
  let sign := signCore.1
  let core := signCore.2
  let d1 := core.takeWhile Char.isDigit
  let rest := core.dropWhile Char.isDigit
  let step : Rat × List Char :=
    match rest with
    | '.' :: r2 =>
      let d2 := r2.takeWhile Char.isDigit
      ((decValue d1 : Rat) + (decValue d2 : Rat) / ((10 : Rat) ^ d2.length),
       r2.dropWhile Char.isDigit)
    | r => ((decValue d1 : Rat), r)
  match step.2 with
  | c :: r3 =>
    if c = 'e' || c = 'E' then
      match r3 with
      | '+' :: r4 => sign * step.1 * (10 : Rat) ^ decValue r4
      | '-' :: r4 => sign * step.1 / ((10 : Rat) ^ decValue r4)
      | r4 => sign * step.1 * (10 : Rat) ^ decValue r4
    else sign * step.1
  | [] => sign * step.1

/-- Python long() truncation toward zero of a rational. -/
def pyLongOfRat (q : Rat) : Int :=
  if q ≥ 0 then q.floor else -((-q).floor)

/-- Embedding of LAPParser.numfloat. -/
def pNumfloat (ts : List Token) : Except PyErr (Rat × List Token) :=
  match ts with
  | [] => eofErr
  | t :: rest =>
    if t.tok = "NUMINT" || t.tok = "NUMFLOAT" then .ok (ratOfNumString t.value, rest)
    else .error (.parseError "Expected a floating-point number")

/-- Embedding of LAPParser.freq_unit: the token kind of the unit. -/
def pFreqUnit (ts : List Token) : Except PyErr (String × List Token) :=
  match ts with
  | [] => eofErr
  | t :: rest =>
    if ["HOURS", "MINUTES", "SECONDS", "HZ", "PM", "NONE"].contains t.tok then .ok (t.tok, rest)
    else .error (.parseError "Expected a valid frequency unit")

/-- Embedding of LAPParser.freq: the unit scales the number into milliseconds
and Python long() truncates (lapparser.py lines 1020-1043). -/
def pFreq (ts0 : List Token) : Except PyErr (Int × List Token) := do
  let (unit, ts) ← pFreqUnit ts0
  let (v, ts) ← pNumfloat ts
  let (_, ts) ← expectTok "RPAREN" "Expected ) to end freq" ts
  let r : Rat :=
    if unit = "HOURS" then 3600000 * v
    else if unit = "MINUTES" then 60000 * v
    else if unit = "SECONDS" then 1000 * v
    else if unit = "HZ" then 1000 / v
    else if unit = "PM" then 60000 / v
    else v
  .ok (pyLongOfRat r, ts)

/-- Embedding of LAPParser.time_unit. -/
def pTimeUnit (ts : List Token) : Except PyErr (String × List Token) :=
  match ts with
  | [] => eofErr
  | t :: rest =>
    if ["HOURS", "MINUTES", "SECONDS", "NONE"].contains t.tok then .ok (t.tok, rest)
    else .error (.parseError "Expected a valid time unit")

/-- Embedding of LAPParser.time. -/
def pTime (ts0 : List Token) : Except PyErr (Int × List Token) := do
  let (unit, ts) ← pTimeUnit ts0
  let (v, ts) ← pNumfloat ts
  let (_, ts) ← expectTok "RPAREN" "Expected ) to end time" ts
  let r : Rat :=
    if unit = "HOURS" then 3600000 * v
    else if unit = "MINUTES" then 60000 * v
    else if unit = "SECONDS" then 1000 * v
    else v
  .ok (pyLongOfRat r, ts)

/-- Embedding of LAPParser.drive_element (lapparser.py lines 576-629). -/
def pDriveElement (fuel : Nat) (ts0 : List Token) : Except PyErr (DriveElementSpec × List Token) := do
  let (_, ts) ← expectTok "LPAREN" "Expected ( to start drive element" ts0
  let (name, ts) ← expectTok "NAME" "Expected valid drive element name" ts
  let ok ← peekIn ["NAME", "LPAREN", "NIL"] ts
  if !ok then .error (.parseError "Expected name of triggerable, ( or nil")
  else do
    let isNil ← peekIs "NIL" ts
    let isLp ← peekIs "LPAREN" ts
    let (trigger, ts) ←
      if isNil then pure ((none : Option (List SenseSpec)), ts.tail)
      else if isLp then pTrigger fuel ts.tail
      else pure ((none : Option (List SenseSpec)), ts)
    if isNil || isLp then do
      let chk ← peekIs "NAME" ts
      if !chk then .error (.parseError "Expected name of triggerable in drive element")
      else pDriveElementTail name trigger ts
    else
      pDriveElementTail name trigger ts
where
  /-- Triggerable, frequency, optional comment and closing parenthesis. -/
  pDriveElementTail (name : String) (trigger : Option (List SenseSpec))
      (ts1 : List Token) : Except PyErr (DriveElementSpec × List Token) := do
    let (triggerable, ts) ← expectTok "NAME" "Expected name of triggerable in drive element" ts1
    let fNil ← peekIs "NIL" ts
    let fLp ← peekIs "LPAREN" ts
    let (freq, ts) ←
      if fNil then pure ((none : Option Int), ts.tail)
      else if fLp then do
        let (f, ts2) ← pFreq ts.tail
        pure (some f, ts2)
      else pure ((none : Option Int), ts)
    let (_, ts) ← pOptComment ts
    let (_, ts) ← expectTok "RPAREN" "Expected ) as the end of drive element" ts
    .ok ({ name := name, trigger := trigger, triggerable := triggerable, freq := freq }, ts)

/-- Loop of LAPParser.drive_elements over single drive elements. -/
def pDriveElementLoop (fuel : Nat) (ts : List Token) : Except PyErr (List DriveElementSpec × List Token) :=
  match fuel with
  | 0 => .error .outOfFuel
  | fuel + 1 => do
    let lp ← peekIs "LPAREN" ts
    if lp then do
      let (de, ts2) ← pDriveElement fuel ts
      let (l, ts3) ← pDriveElementLoop fuel ts2
      .ok (de :: l, ts3)
    else .ok ([], ts)

/-- Embedding of LAPParser.drive_elements (lapparser.py lines 554-574). -/
def pDriveElements (fuel : Nat) (ts0 : List Token) : Except PyErr (List DriveElementSpec × List Token) := do
  let (_, ts) ← expectTok "LPAREN" "Expected ( to start list of drive elements" ts0
  let lp ← peekIs "LPAREN" ts
  if !lp then .error (.parseError "Expected ( to start drive element")
  else do
    let (els, ts) ← pDriveElementLoop fuel ts
    let (_, ts) ← expectTok "RPAREN" "Expected ) to end list of drive elements" ts
    .ok (els, ts)

/-- Loop of LAPParser.drive_priorities over drive element blocks. -/
def pDrivePrioritiesLoop (fuel : Nat) (ts : List Token) : Except PyErr (List (List DriveElementSpec) × List Token) :=
  match fuel with
  | 0 => .error .outOfFuel
  | fuel + 1 => do
    let lp ← peekIs "LPAREN" ts
    if lp then do
      let (block, ts2) ← pDriveElements fuel ts
      let (l, ts3) ← pDrivePrioritiesLoop fuel ts2
      .ok (block :: l, ts3)
    else .ok ([], ts)

/-- Embedding of LAPParser.drive_priorities (lapparser.py lines 540-552). -/
def pDrivePriorities (fuel : Nat) (ts : List Token) : Except PyErr (List (List DriveElementSpec) × List Token) := do
  let lp ← peekIs "LPAREN" ts
  if !lp then .error (.parseError "Expected ( that starts list of drive elements")
  else pDrivePrioritiesLoop fuel ts

/-- Embedding of LAPParser.drive_collection_id. -/
def pDriveCollectionId (ts : List Token) : Except PyErr (String × List Token) :=
  match ts with
  | [] => eofErr
  | t :: rest =>
    if ["DC", "RDC", "SDC", "SRDC"].contains t.tok then .ok (t.tok, rest)
    else .error (.parseError "Expected the drive collection type")

/-- Shared tail of LAPParser.drive_collection after the goal slot: the drives
keyword, the priorities and the two closing parentheses. -/
def pDriveCollectionTail (fuel : Nat) (cid name : String) (goal : Option (List SenseSpec))
    (ts1 : List Token) : Except PyErr (DCSpec × List Token) := do
  let (_, ts) ← expectTok "DRIVES" "Expected drives in drive collection" ts1
  let (priorities, ts) ← pDrivePriorities fuel ts
  let (_, ts) ← expectTok "RPAREN" "Expected ) to end drive collection" ts
  let (_, ts) ← expectTok "RPAREN" "Expected ) to end drive collection" ts
  .ok ({ dctype := cid, name := name, goal := goal, priorities := priorities }, ts)

/-- Embedding of LAPParser.drive_collection (lapparser.py lines 472-525). -/
def pDriveCollection (fuel : Nat) (ts0 : List Token) : Except PyErr (DCSpec × List Token) := do
  let (cid, ts) ← pDriveCollectionId ts0
  let (name, ts) ← expectTok "NAME" "Expected a valid drive collection name" ts
  let isNil ← peekIs "NIL" ts
  if isNil then do
    let (_, ts) ← expectTok "LPAREN" "Expected ( after nil in drive collection" ts.tail
    pDriveCollectionTail fuel cid name none ts
  else do
    let (_, ts) ← expectTok "LPAREN" "Expected ( after drive collection name" ts
    let g ← peekIs "GOAL" ts
    if g then do
      let (goal, ts) ← pGoal fuel ts
      let (_, ts) ← expectTok "LPAREN" "Expected ( after goal in drive collection" ts
      pDriveCollectionTail fuel cid name goal ts
    else
      pDriveCollectionTail fuel cid name none ts

/-- Embedding of LAPParser.competence_element (lapparser.py lines 771-820). -/
def pCompetenceElement (fuel : Nat) (ts0 : List Token) : Except PyErr (CompetenceElementSpec × List Token) := do
  let (_, ts) ← expectTok "LPAREN" "Expected ( to start a competence element" ts0
  let (name, ts) ← expectTok "NAME" "Expected competence element name" ts
  let isNil ← peekIs "NIL" ts
  let isLp ← peekIs "LPAREN" ts
  let (trigger, ts) ←
    if isNil then pure ((none : Option (List SenseSpec)), ts.tail)
    else if isLp then pTrigger fuel ts.tail
    else pure ((none : Option (List SenseSpec)), ts)
  let (triggerable, ts) ← expectTok "NAME" "Expected name of triggerable in competence" ts
  let rNil ← peekIs "NIL" ts
  let rNum ← peekIs "NUMINT" ts
  let (retries, ts) ←
    if rNil then pure ((-1 : Int), ts.tail)
    else if rNum then do
      match ts with
      | t :: rest => do
        let i ← pyInt t.value
        pure (i, rest)
      | [] => eofErr
    else pure ((-1 : Int), ts)
  let (_, ts) ← pOptComment ts
  let (_, ts) ← expectTok "RPAREN" "Expected ) to end competence element" ts
  .ok ({ name := name, trigger := trigger, triggerable := triggerable, retries := retries }, ts)

/-- Loop of LAPParser.competence_elements over single competence elements. -/
def pCompetenceElementLoop (fuel : Nat) (ts : List Token) : Except PyErr (List CompetenceElementSpec × List Token) :=
  match fuel with
  | 0 => .error .outOfFuel
  | fuel + 1 => do
    let lp ← peekIs "LPAREN" ts
    if lp then do
      let (ce, ts2) ← pCompetenceElement fuel ts
      let (l, ts3) ← pCompetenceElementLoop fuel ts2
      .ok (ce :: l, ts3)
    else .ok ([], ts)

/-- Embedding of LAPParser.competence_elements (lapparser.py lines 747-769). -/
def pCompetenceElements (fuel : Nat) (ts0 : List Token) : Except PyErr (List CompetenceElementSpec × List Token) := do
  let (_, ts) ← expectTok "LPAREN" "Expected ( as start of a list of competence elements" ts0
  let lp ← peekIs "LPAREN" ts
  if !lp then .error (.parseError "Expected ( to start a competence element")
  else do
    let (els, ts) ← pCompetenceElementLoop fuel ts
    let (_, ts) ← expectTok "RPAREN" "Expected ) as end of a list of competence elements" ts
    .ok (els, ts)

/-- Loop of LAPParser.competence_priorities over competence element blocks. -/
def pCompetencePrioritiesLoop (fuel : Nat) (ts : List Token) :
    Except PyErr (List (List CompetenceElementSpec) × List Token) :=
  match fuel with
  | 0 => .error .outOfFuel
  | fuel + 1 => do
    let lp ← peekIs "LPAREN" ts
    if lp then do
      let (block, ts2) ← pCompetenceElements fuel ts
      let (l, ts3) ← pCompetencePrioritiesLoop fuel ts2
      .ok (block :: l, ts3)
    else .ok ([], ts)

/-- Embedding of LAPParser.competence_priorities (lapparser.py lines
733-745). -/
def pCompetencePriorities (fuel : Nat) (ts : List Token) :
    Except PyErr (List (List CompetenceElementSpec) × List Token) := do
  let lp ← peekIs "LPAREN" ts
  if !lp then .error (.parseError "Expected ( as start of a list of competence elements")
  else pCompetencePrioritiesLoop fuel ts

/-- Shared tail of LAPParser.competence: elements keyword, priorities, closing
parenthesis, optional comment and final closing parenthesis. -/
def pCompetenceTail (fuel : Nat) (name : String) (time : Option Int)
    (goal : Option (List SenseSpec)) (ts1 : List Token) : Except PyErr (CompetenceSpec × List Token) := do
  let (_, ts) ← expectTok "ELEMENTS" "Expected elements as start of element in competence" ts1
  let (priorities, ts) ← pCompetencePriorities fuel ts
  let (_, ts) ← expectTok "RPAREN" "Expected ) to end competence elements" ts
  let (_, ts) ← pOptComment ts
  let (_, ts) ← expectTok "RPAREN" "Expected ) to end competence" ts
  .ok ({ name := name, time := time, goal := goal, priorities := priorities }, ts)

/-- Embedding of LAPParser.competence (lapparser.py lines 631-731), with its
branching over the optional time and goal slots. -/
def pCompetence (fuel : Nat) (ts0 : List Token) : Except PyErr (CompetenceSpec × List Token) := do
  let (_, ts) ← expectTok "C" "Expected C as start of competence" ts0
  let (name, ts) ← expectTok "NAME" "Expected valid competence name" ts
  let ok ← peekIn ["LPAREN", "NIL"] ts
  if !ok then .error (.parseError "Expected ( or nil after competence name")
  else do
    let isNil ← peekIs "NIL" ts
    if isNil then do
      let ts := ts.tail
      let ok2 ← peekIn ["LPAREN", "NIL"] ts
      if !ok2 then .error (.parseError "Expected ( or nil after nil for time in competence")
      else do
        let isNil2 ← peekIs "NIL" ts
        if isNil2 then do
          let (_, ts) ← expectTok "LPAREN" "Expected ( after nil for goal in competence" ts.tail
          pCompetenceTail fuel name none none ts
        else do
          let ts := ts.tail
          let g ← peekIs "GOAL" ts
          if g then do
            let (goal, ts) ← pGoal fuel ts
            let (_, ts) ← expectTok "LPAREN" "Expected ( after goal in competence" ts
            pCompetenceTail fuel name none goal ts
          else
            pCompetenceTail fuel name none none ts
    else do
      let ts := ts.tail
      let isTime ← peekIn ["HOURS", "MINUTES", "SECONDS", "NONE"] ts
      if isTime then do
        let (time, ts) ← pTime ts
        let ok3 ← peekIn ["LPAREN", "NIL"] ts
        if !ok3 then .error (.parseError "Expected ( or nil after time in competence")
        else do
          let isNil3 ← peekIs "NIL" ts
          if isNil3 then do
            let (_, ts) ← expectTok "LPAREN" "Expected ( after nil for goal in competence" ts.tail
            pCompetenceTail fuel name (some time) none ts
          else do
            let ts := ts.tail
            let g2 ← peekIs "GOAL" ts
            if g2 then do
              let (goal, ts) ← pGoal fuel ts
              let (_, ts) ← expectTok "LPAREN" "Expected ( after goal in competence" ts
              pCompetenceTail fuel name (some time) goal ts
            else
              pCompetenceTail fuel name (some time) none ts
      else do
        let g3 ← peekIs "GOAL" ts
        if g3 then do
          let (goal, ts) ← pGoal fuel ts
          let (_, ts) ← expectTok "LPAREN" "Expected ( after goal in competence" ts
          pCompetenceTail fuel name none goal ts
        else
          pCompetenceTail fuel name none none ts

/-- Loop of LAPParser.action_pattern_elements: names and full senses until the
closing parenthesis. -/
def pAPElementsLoop (fuel : Nat) (ts : List Token) : Except PyErr (List APElemSpec × List Token) :=
  match fuel with
  | 0 => .error .outOfFuel
  | fuel + 1 =>
    match ts with
    | [] => eofErr
    | t :: rest =>
      if t.tok = "LPAREN" then do
        let ((n, v, p), ts2) ← pFullSense ts
        let (l, ts3) ← pAPElementsLoop fuel ts2
        .ok (.fullSense n v p :: l, ts3)
      else if t.tok = "NAME" then do
        let (l, ts2) ← pAPElementsLoop fuel rest
        .ok (.name t.value :: l, ts2)
      else .ok ([], ts)

/-- Embedding of LAPParser.action_pattern_elements (lapparser.py lines
873-894). -/
def pAPElements (fuel : Nat) (ts : List Token) : Except PyErr (List APElemSpec × List Token) := do
  let ok ← peekIn ["LPAREN", "NAME"] ts
  if !ok then .error (.parseError "Expected an action pattern element name or (")
  else do
    let (els, ts2) ← pAPElementsLoop fuel ts
    let (_, ts3) ← expectTok "RPAREN" "Expected ) to end action pattern" ts2
    .ok (els, ts3)

/-- Embedding of LAPParser.action_pattern (lapparser.py lines 822-871). -/
def pActionPattern (fuel : Nat) (ts0 : List Token) : Except PyErr (APSpec × List Token) := do
  let (_, ts) ← expectTok "AP" "Expected AP" ts0
  let (name, ts) ← expectTok "NAME" "Not a valid name for an action pattern" ts
  let isNil ← peekIs "NIL" ts
  let isLp ← peekIs "LPAREN" ts
  if isNil then do
    let (_, ts) ← expectTok "LPAREN" "Expected ( after nil for time in action pattern" ts.tail
    pActionPatternTail fuel name none ts
  else if isLp then do
    let ts := ts.tail
    let isTime ← peekIn ["HOURS", "MINUTES", "SECONDS", "NONE"] ts
    if isTime then do
      let (time, ts) ← pTime ts
      let (_, ts) ← expectTok "LPAREN" "Expected ( after time in action pattern" ts
      pActionPatternTail fuel name (some time) ts
    else
      pActionPatternTail fuel name none ts
  else .error (.parseError "Expected ( or nil after action pattern name")
where
  /-- Element list, optional comment and closing parenthesis. -/
  pActionPatternTail (fuel : Nat) (name : String) (time : Option Int) (ts1 : List Token) :
      Except PyErr (APSpec × List Token) := do
    let (elements, ts) ← pAPElements fuel ts1
    let (_, ts) ← pOptComment ts
    let (_, ts) ← expectTok "RPAREN" "Expected ) in action pattern" ts
    .ok ({ name := name, time := time, elements := elements }, ts)

/-- Comment token text with the surrounding quotes removed (value[1:-1]). -/
def stripQuotes (s : String) : String :=
  String.mk ((s.toList.drop 1).dropLast)

/-- Embedding of LAPParser.docstring. -/
def pDocstring (ts0 : List Token) : Except PyErr (List String × List Token) := do
  let (_, ts) ← expectTok "DOCUMENTATION" "Expected documentation as start of docstring" ts0
  let (c1, ts) ← expectTok "COMMENT" "Expected a comment in documentation" ts
  let (c2, ts) ← expectTok "COMMENT" "Expected a comment in documentation" ts
  let (c3, ts) ← expectTok "COMMENT" "Expected a comment in documentation" ts
  let (_, ts) ← expectTok "RPAREN" "Expected ) to end docstring" ts
  .ok ([stripQuotes c1, stripQuotes c2, stripQuotes c3], ts)

/-- The loop of LAPParser.plan (lapparser.py lines 399-437), counting
docstrings, competences, action patterns and drive collections to enforce the
placement rules. -/
def pPlanLoop (fuel : Nat) (pb : PlanBuilderRep) (ap c d dc : Nat) (ts : List Token) :
    Except PyErr (PlanBuilderRep × Nat × Nat × Nat × List Token) :=
  match fuel with
  | 0 => .error .outOfFuel
  | fuel + 1 => do
    let ok ← peekIn ["LPAREN", "RPAREN"] ts
    if !ok then
      .error (.parseError "Expected ( as start of documentation, competence, action-pattern or drive-collection, or ) to end plan")
    else do
      let rp ← peekIs "RPAREN" ts
      if rp then .ok (pb, ap, c, dc, ts.tail)
      else do
        let ts := ts.tail
        let isDoc ← peekIs "DOCUMENTATION" ts
        let isC ← peekIs "C" ts
        let isAP ← peekIs "AP" ts
        let isDC ← peekIn ["DC", "RDC", "SDC", "SRDC"] ts
        if isDoc then
          if ap + c + dc + d > 0 then
            .error (.parseError "Documentation only allowed as first element in plan")
          else do
            let (docs, ts2) ← pDocstring ts
            pPlanLoop fuel { pb with docstring := some docs } ap c (d + 1) dc ts2
        else if isC then do
          let (comp, ts2) ← pCompetence fuel ts
          let pb2 ← pb.addCompetence comp
          pPlanLoop fuel pb2 ap (c + 1) d dc ts2
        else if isAP then do
          let (apSpec, ts2) ← pActionPattern fuel ts
          let pb2 ← pb.addActionPattern apSpec
          pPlanLoop fuel pb2 (ap + 1) c d dc ts2
        else if isDC then
          if dc > 0 then .error (.parseError "Only a single drive-collection allowed")
          else do
            let (dcSpec, ts2) ← pDriveCollection fuel ts
            pPlanLoop fuel { pb with drivecollection := some dcSpec } ap c d (dc + 1) ts2
        else
          .error (.parseError "Expected docstring, competence, action pattern or drive collection")

/-- Embedding of LAPParser.plan (lapparser.py lines 376-446). -/
def pPlan (fuel : Nat) (ts0 : List Token) : Except PyErr PlanBuilderRep := do
  let (_, ts) ← expectTok "LPAREN" "Plan needs to start with (" ts0
  let (pb, ap, c, dc, ts) ← pPlanLoop fuel PlanBuilderRep.empty 0 0 0 0 ts
  if !ts.isEmpty then .error (.parseError "Illegal token after end of plan")
  else if dc = 0 && ap + c ≠ 1 then
    .error (.parseError "Illegal plan: a plan without a drive-collection only allows for a single action-pattern or a single competence")
  else .ok pb

/-- Embedding of LAPParser.parse: tokenise and analyse a plan string.  The
fuel is one more than the input length, which bounds the token count; every
loop iteration consumes at least one token. -/
def lapParse (s : String) : Except PyErr PlanBuilderRep :=
  pPlan (s.length + 1) (lexAll s)

/-! Theorems for the claims. -/

/-- Claim C4: the slip-stack step of a drive element.  fire() never touches
the last-fired timestamp, and the cursor after fire() is the root when the
cursor element was an Action or the fired element reported a stop result, the
handoff target when the fired element reported continue with a target, and
unchanged otherwise (continue without a target). -/
theorem claim_C4_driveElement_fire (de : DriveElement) (res : FireResult) :
    (de.fire res).lastFired = de.lastFired ∧
    (((∃ n, de.element = NodeRef.action n) ∨ res.continueExecution = false) →
      (de.fire res).element = de.root) ∧
    ((∀ n, de.element ≠ NodeRef.action n) → res.continueExecution = true →
      ∀ tgt, res.nextElement = some tgt → (de.fire res).element = tgt) ∧
    ((∀ n, de.element ≠ NodeRef.action n) → res.continueExecution = true →
      res.nextElement = none → (de.fire res).element = de.element) := by
  unfold DriveElement.fire
  rcases res with ⟨cont, next⟩
  refine ⟨?_, ?_, ?_, ?_⟩
  · cases h : de.element <;> simp [h] <;> cases cont <;> simp <;> cases next <;> simp
  · rintro (⟨n, hn⟩ | hc)
    · simp [hn]
    · subst hc
      cases h : de.element <;> simp [h]
  · intro hna hc tgt hnext
    subst hc
    have hnext2 : next = some tgt := hnext
    subst hnext2
    cases h : de.element with
    | action n => exact absurd h (hna n)
    | comp i => simp [h]
    | ap i => simp [h]
    | driveCollection => simp [h]
  · intro hna hc hnext
    subst hc
    have hnext2 : next = none := hnext
    subst hnext2
    cases h : de.element with
    | action n => exact absurd h (hna n)
    | comp i => simp [h]
    | ap i => simp [h]
    | driveCollection => simp [h]

/-- Witness for C4 at a concrete drive element whose cursor is a competence
and whose fired element reported stop: the cursor slips back to the root. -/
theorem claim_C4_witness :
    (DriveElement.fire { continueExecution := false, nextElement := none }
      { name := "e", trigger := none, root := .action "a", element := .comp 0,
        maxFreq := none, lastFired := 5, deId := 0 }).element = .action "a" :=
  (claim_C4_driveElement_fire
    { name := "e", trigger := none, root := .action "a", element := .comp 0,
      maxFreq := none, lastFired := 5, deId := 0 }
    { continueExecution := false, nextElement := none }).2.1 (Or.inr rfl)

/-- Whether an action pattern element is an Action or a Sense (the leaf kinds
of the pattern state machine). -/
def APElem.isLeaf : APElem → Bool
  | .comp _ => false
  | _ => true

/-- Success of evaluating a leaf element of an action pattern. -/
def apLeafOutcome (actEnv : String → Bool) (senseEnv : String → PyValue) : APElem → Bool
  | .action n => actEnv n
  | .sense s => s.fire senseEnv
  | .comp _ => false

/-- Claim C7: the ActionPattern.fire state machine.  With the cursor on a
leaf: failure resets the cursor and reports stop with no handoff; success
advances, reporting stop with a reset cursor at the end of the sequence and
continue with no handoff otherwise.  With the cursor on a competence, the
cursor resets and the result designates that competence as handoff target. -/
theorem claim_C7_actionPattern_fire (actEnv : String → Bool) (senseEnv : String → PyValue)
    (ap : ActionPattern) (el : APElem) (hel : ap.elements[ap.elementIdx]? = some el) :
    (el.isLeaf = true → apLeafOutcome actEnv senseEnv el = false →
      ap.fire actEnv senseEnv =
        .ok ({ continueExecution := false, nextElement := none }, { ap with elementIdx := 0 })) ∧
    (el.isLeaf = true → apLeafOutcome actEnv senseEnv el = true →
      ap.elements.length ≤ ap.elementIdx + 1 →
      ap.fire actEnv senseEnv =
        .ok ({ continueExecution := false, nextElement := none }, { ap with elementIdx := 0 })) ∧
    (el.isLeaf = true → apLeafOutcome actEnv senseEnv el = true →
      ap.elementIdx + 1 < ap.elements.length →
      ap.fire actEnv senseEnv =
        .ok ({ continueExecution := true, nextElement := none },
             { ap with elementIdx := ap.elementIdx + 1 })) ∧
    (∀ cid, el = .comp cid →
      ap.fire actEnv senseEnv =
        .ok ({ continueExecution := true, nextElement := some (.comp cid) },
             { ap with elementIdx := 0 })) := by
  refine ⟨?_, ?_, ?_, ?_⟩
  · intro hleaf hout
    cases el with
    | action n =>
      simp only [apLeafOutcome] at hout
      simp [ActionPattern.fire, hel, apLeafStep, hout]
    | sense s =>
      simp only [apLeafOutcome] at hout
      simp [ActionPattern.fire, hel, apLeafStep, hout]
    | comp c => simp [APElem.isLeaf] at hleaf
  · intro hleaf hout hlen
    cases el with
    | action n =>
      simp only [apLeafOutcome] at hout
      simp [ActionPattern.fire, hel, apLeafStep, hout, hlen]
    | sense s =>
      simp only [apLeafOutcome] at hout
      simp [ActionPattern.fire, hel, apLeafStep, hout, hlen]
    | comp c => simp [APElem.isLeaf] at hleaf
  · intro hleaf hout hlen
    cases el with
    | action n =>
      simp only [apLeafOutcome] at hout
      simp [ActionPattern.fire, hel, apLeafStep, hout, Nat.not_le.mpr hlen]
    | sense s =>
      simp only [apLeafOutcome] at hout
      simp [ActionPattern.fire, hel, apLeafStep, hout, Nat.not_le.mpr hlen]
    | comp c => simp [APElem.isLeaf] at hleaf
  · rintro cid rfl
    simp [ActionPattern.fire, hel]

/-- Witness for C7 at a concrete two-element pattern whose first action fails:
the cursor resets to zero and the result is stop with no handoff. -/
theorem claim_C7_witness :
    ActionPattern.fire (fun _ => false) (fun _ => .int 0)
      { name := "p", elements := [.action "a1", .action "a2"], elementIdx := 0 } =
      .ok ({ continueExecution := false, nextElement := none },
           { name := "p", elements := [.action "a1", .action "a2"], elementIdx := 0 }) :=
  (claim_C7_actionPattern_fire (fun _ => false) (fun _ => .int 0)
    { name := "p", elements := [.action "a1", .action "a2"], elementIdx := 0 }
    (.action "a1") rfl).1 rfl rfl

/-- Claim C9 is a code bug; this theorem evaluates the embedded conversion at
the failing literal: the textual literal false matches the boolean pattern but
is converted to the integer 1 (true), because the source tests the truthiness
of the nonempty string instead of the matched word; true also becomes 1. -/
theorem claim_C9_convertValue_false :
    convertValue (some "false") = .ok (some (.int 1)) ∧
    boolMatcher "false" = true ∧ intMatcher "false" = false ∧ floatMatcher "false" = false ∧
    convertValue (some "true") = .ok (some (.int 1)) ∧
    convertValue none = .ok none := by
  refine ⟨by decide, by decide, by decide, by decide, by decide, rfl⟩

/-- Claim C10: a nil trigger in the plan is built as no trigger object at all,
and every readiness check of a drive or competence element with no trigger
raises instead of treating the element as always triggered, so an evaluation
step that reaches such an element never completes normally. -/
theorem claim_C10_nil_trigger_raises :
    (∀ bd : BehaviourDict, buildGoal bd none = .ok none ∧ buildGoal bd (some []) = .ok none) ∧
    (∀ (env : String → PyValue) (ts : Int) (de : DriveElement), de.trigger = none →
      de.isReady env ts = .error (.attributeError "NoneType object has no attribute fire")) ∧
    (∀ (env : String → PyValue) (ts : Int) (ce : CompetenceElement), ce.trigger = none →
      ce.isReady env ts = .error (.attributeError "NoneType object has no attribute fire")) ∧
    (∀ (env : String → PyValue) (ts : Int) (cf : NodeRef → FireResult)
        (de : DriveElement) (rest : List DriveElement), de.trigger = none →
      ∀ x, dpeFireAux env ts cf (de :: rest) ≠ .ok x) := by
  refine ⟨fun bd => ⟨rfl, rfl⟩, ?_, ?_, ?_⟩
  · intro env ts de h
    simp [DriveElement.isReady, h]
  · intro env ts ce h
    simp [CompetenceElement.isReady, h]
  · intro env ts cf de rest h x
    simp [dpeFireAux, DriveElement.isReady, h, Bind.bind, Except.bind]

/-! Claim C1: the sharing structure of the built tree.  Node identity is
explicit in the embedding: the stub phase allocates one competence / action
pattern instance per name (its index), and each DriveElement carries the
allocation counter value as its identity; equal indices mean one shared
Python object, so shared mutable state. -/

/-- Capability registry for the C1 plan: one action. -/
def c1bd : BehaviourDict := { actions := ["act"], senses := [] }

/-- A competence descriptor named c with one element targeting the action. -/
def c1comp : CompetenceSpec :=
  { name := "c", time := none, goal := none,
    priorities := [[{ name := "ce1", trigger := none, triggerable := "act", retries := -1 }]] }

/-- A plan whose single priority block holds two drive elements that both
reference the competence c: two distinct reference sites for one name. -/
def c1plan : PlanBuilderRep :=
  { docstring := none,
    drivecollection := some
      { dctype := "SDC", name := "d", goal := none,
        priorities := [[{ name := "e1", trigger := none, triggerable := "c", freq := none },
                        { name := "e2", trigger := none, triggerable := "c", freq := none }]] },
    actionpatterns := [],
    competences := [("c", c1comp)] }

/-- The instance each drive-element reference site of the built C1 plan
received as its root. -/
def c1roots : Except PyErr (List NodeRef) :=
  (c1plan.build c1bd).map
    (fun bp => (bp.dc.elements.map (fun pe => pe.elements.map DriveElement.root)).flatten)

/-- Counterexample to C1: the build succeeds and both reference sites hold
the identical competence instance (index 0) — getTriggerable returns the stub
from the map and the builder never copies, so the two drive elements share
one mutable cursor / retry state, contradicting the claimed per-site
independently-mutable instance (which would make the two roots distinct). -/
theorem claim_C1_counterexample :
    c1roots = .ok [.comp 0, .comp 0] ∧ ¬(∀ l, c1roots = .ok l → l.Nodup) := by
  have h : c1roots = .ok [.comp 0, .comp 0] := by decide
  refine ⟨h, fun hall => ?_⟩
  have hnd := hall [.comp 0, .comp 0] h
  simp at hnd

/-- The drive-element constructor embedding allocates the current counter as
the identity and advances it by one. -/
lemma buildDriveElement_ok (bd : BehaviourDict) (comps aps : List (String × Nat))
    (c : Nat) (e : DriveElementSpec) (de : DriveElement) (c2 : Nat)
    (h : buildDriveElement bd comps aps c e = .ok (de, c2)) :
    de.deId = c ∧ c2 = c + 1 := by
  unfold buildDriveElement at h
  cases hg : buildGoal bd e.trigger with
  | error err => rw [hg] at h; exact absurd h (by simp [Bind.bind, Except.bind])
  | ok trig =>
    rw [hg] at h
    cases ht : getTriggerable bd comps aps e.triggerable with
    | error err => rw [ht] at h; exact absurd h (by simp [Bind.bind, Except.bind])
    | ok t =>
      rw [ht] at h
      simp [Bind.bind, Except.bind] at h
      exact ⟨by rw [← h.1], h.2.symm⟩

/-- The drive elements of one block receive consecutive identities starting
at the incoming counter. -/
lemma buildDriveElems_ids (bd : BehaviourDict) (comps aps : List (String × Nat)) :
    ∀ (specs : List DriveElementSpec) (c : Nat) (des : List DriveElement) (c2 : Nat),
      buildDriveElems bd comps aps specs c = .ok (des, c2) →
      des.map DriveElement.deId = List.range' c des.length ∧ c2 = c + des.length := by
  intro specs
  induction specs with
  | nil =>
    intro c des c2 h
    simp [buildDriveElems] at h
    obtain ⟨rfl, rfl⟩ := h
    simp
  | cons e rest ih =>
    intro c des c2 h
    simp only [buildDriveElems, Bind.bind, Except.bind] at h
    cases hb : buildDriveElement bd comps aps c e with
    | error err => rw [hb] at h; exact absurd h (by simp)
    | ok p =>
      rw [hb] at h
      obtain ⟨de, cMid⟩ := p
      dsimp only at h
      obtain ⟨hid, hcMid⟩ := buildDriveElement_ok bd comps aps c e de cMid hb
      cases haux : buildDriveElems bd comps aps rest cMid with
      | error err => rw [haux] at h; exact absurd h (by simp)
      | ok q =>
        rw [haux] at h
        obtain ⟨des2, c3⟩ := q
        dsimp only at h
        simp at h
        obtain ⟨hdes, hc2⟩ := h
        obtain ⟨ih1, ih2⟩ := ih cMid des2 c3 haux
        subst hcMid
        constructor
        · rw [← hdes]
          simp only [List.map_cons, List.length_cons, hid, ih1]
          rfl
        · rw [← hdes, List.length_cons]
          omega

/-- The drive priority blocks together receive consecutive identities. -/
lemma buildDrivePriorities_ids (bd : BehaviourDict) (comps aps : List (String × Nat))
    (dcname : String) :
    ∀ (pls : List (List DriveElementSpec)) (c : Nat) (pes : List DrivePriorityElement)
      (c2 : Nat),
      buildDrivePriorities bd comps aps dcname pls c = .ok (pes, c2) →
      (pes.map (fun pe => pe.elements.map DriveElement.deId)).flatten =
        List.range' c (c2 - c) ∧ c ≤ c2 := by
  intro pls
  induction pls with
  | nil =>
    intro c pes c2 h
    simp [buildDrivePriorities] at h
    obtain ⟨rfl, rfl⟩ := h
    simp
  | cons block rest ih =>
    intro c pes c2 h
    simp only [buildDrivePriorities, Bind.bind, Except.bind] at h
    cases hb : buildDriveElems bd comps aps block c with
    | error err => rw [hb] at h; exact absurd h (by simp)
    | ok p =>
      rw [hb] at h
      obtain ⟨des, cMid⟩ := p
      dsimp only at h
      obtain ⟨hids, hcMid⟩ := buildDriveElems_ids bd comps aps block c des cMid hb
      cases haux : buildDrivePriorities bd comps aps dcname rest cMid with
      | error err => rw [haux] at h; exact absurd h (by simp)
      | ok q =>
        rw [haux] at h
        obtain ⟨pes2, c3⟩ := q
        dsimp only at h
        simp at h
        obtain ⟨hpes, hc2⟩ := h
        obtain ⟨ih1, ih2⟩ := ih cMid pes2 c3 haux
        subst hcMid
        constructor
        · rw [← hpes]
          show des.map DriveElement.deId ++
            (pes2.map (fun pe => pe.elements.map DriveElement.deId)).flatten = _
          rw [hids, ih1]
          have happ := List.range'_append_1 c des.length (c3 - (c + des.length))
          rw [happ]
          congr 1
          omega
        · omega

/-- Claim C1 amended: every reference site resolving a competence or action
pattern name receives the single stub instance allocated for that name (so
sites naming the same definition share it, copies are never made), while the
drive layer is never duplicated: the copy operation of DriveCollection,
DrivePriorityElement and DriveElement always raises, and the builder creates
one fresh DriveElement per descriptor, with pairwise distinct identities. -/
theorem claim_C1_sharing_amended :
    (∀ (bd : BehaviourDict) (comps aps : List (String × Nat)) (name : String) (i : Nat),
      name ∉ bd.actions → comps.lookup name = some i →
      getTriggerable bd comps aps name = .ok (.comp i)) ∧
    (∀ (bd : BehaviourDict) (comps aps : List (String × Nat)) (name : String) (j : Nat),
      name ∉ bd.actions → comps.lookup name = none → aps.lookup name = some j →
      getTriggerable bd comps aps name = .ok (.ap j)) ∧
    (∀ de : DriveElement,
      de.copy = .error (.notImplementedError "DriveElement.copy() is never supposed to be called")) ∧
    (∀ pe : DrivePriorityElement,
      pe.copy = .error (.notImplementedError "DrivePriorityElement.copy() is never supposed to be called")) ∧
    (∀ dc : DriveCollection,
      dc.copy = .error (.notImplementedError "DriveCollection.copy() is never supposed to be called")) ∧
    (∀ (bd : BehaviourDict) (comps aps : List (String × Nat)) (dcname : String)
       (pls : List (List DriveElementSpec)) (c : Nat) (pes : List DrivePriorityElement)
       (c2 : Nat),
      buildDrivePriorities bd comps aps dcname pls c = .ok (pes, c2) →
      ((pes.map (fun pe => pe.elements.map DriveElement.deId)).flatten).Nodup) := by
  refine ⟨?_, ?_, fun de => rfl, fun pe => rfl, fun dc => rfl, ?_⟩
  · intro bd comps aps name i hna hc
    unfold getTriggerable
    rw [if_neg (by simpa using hna), hc]
  · intro bd comps aps name j hna hc ha
    unfold getTriggerable
    rw [if_neg (by simpa using hna), hc, ha]
  · intro bd comps aps dcname pls c pes c2 h
    have := (buildDrivePriorities_ids bd comps aps dcname pls c pes c2 h).1
    rw [this]
    exact List.nodup_range' c (c2 - c) 1 Nat.one_pos

/-- Witness for C1 amended: for the concrete C1 plan descriptor the two
built drive elements have distinct identities 0 and 1 even though they share
their competence root. -/
theorem claim_C1_amended_witness :
    getTriggerable c1bd [("c", 0)] [] "c" = .ok (.comp 0) :=
  claim_C1_sharing_amended.1 c1bd [("c", 0)] [] "c" 0 (by decide) rfl

/-- The readiness outcome of the scan of CompetencePriorityElement.fire: true
exactly when some element is found ready (a false check leaves the element
unchanged in the source, so the scan continues on the original tail). -/
def cpeAnyReady (env : String → PyValue) : List CompetenceElement → Except PyErr Bool
  | [] => .ok false
  | ce :: rest => do
    let (r, _) ← ce.isReady env 0
    if r then .ok true else cpeAnyReady env rest

/-- A competence element fire result is never the sentinel: an Action target
clears the continue flag, any other target carries a handoff. -/
lemma ceFire_ne_sentinel (ce : CompetenceElement) : ce.fire ≠ cpeSentinel := by
  unfold CompetenceElement.fire cpeSentinel
  cases ce.element <;> simp

/-- The scan loop returns the sentinel exactly when no element is ready. -/
lemma cpeFireAux_sentinel (env : String → PyValue) (elems : List CompetenceElement) :
    ∀ r elems', cpeFireAux env elems = .ok (r, elems') →
      (r = cpeSentinel ↔ cpeAnyReady env elems = .ok false) := by
  induction elems with
  | nil =>
    intro r elems' h
    simp [cpeFireAux] at h
    simp [cpeAnyReady, h.1]
  | cons ce rest ih =>
    intro r elems' h
    simp only [cpeFireAux, Bind.bind, Except.bind] at h
    cases hir : ce.isReady env 0 with
    | error e =>
      rw [hir] at h
      exact absurd h (by simp)
    | ok p =>
      rw [hir] at h
      obtain ⟨b, ce2⟩ := p
      cases b with
      | true =>
        simp at h
        obtain ⟨hr, _⟩ := h
        have hany : cpeAnyReady env (ce :: rest) = .ok true := by
          simp [cpeAnyReady, hir, Bind.bind, Except.bind]
        rw [hany]
        constructor
        · intro hs
          rw [hs] at hr
          exact absurd hr (ceFire_ne_sentinel ce2)
        · intro hf
          exact absurd hf (by simp)
      | false =>
        simp only [if_neg] at h
        cases haux : cpeFireAux env rest with
        | error e =>
          rw [haux] at h
          exact absurd h (by simp)
        | ok q =>
          rw [haux] at h
          obtain ⟨res, rest'⟩ := q
          simp at h
          obtain ⟨hr, _⟩ := h
          have hany : cpeAnyReady env (ce :: rest) = cpeAnyReady env rest := by
            simp [cpeAnyReady, hir, Bind.bind, Except.bind]
          rw [hany, ← hr]
          exact ih res rest' haux

/-- Claim C8: CompetencePriorityElement.fire returns the sentinel
(continue=true, handoff=none) exactly when no element of the scan is ready,
and no competence element fire result ever collides with the sentinel (the
builder never stores an absent target, which the total target type records),
so the enclosing competence can identify the sentinel uniquely. -/
theorem claim_C8_sentinel_distinguishable (env : String → PyValue)
    (cpe : CompetencePriorityElement) (r : FireResult) (cpe' : CompetencePriorityElement)
    (h : cpe.fire env = .ok (r, cpe')) :
    (r = cpeSentinel ↔ cpeAnyReady env cpe.elements = .ok false) ∧
    (∀ ce : CompetenceElement, ce.fire ≠ cpeSentinel) := by
  refine ⟨?_, ceFire_ne_sentinel⟩
  unfold CompetencePriorityElement.fire at h
  cases haux : cpeFireAux env cpe.elements with
  | error e =>
    rw [haux] at h
    exact absurd h (by simp [Bind.bind, Except.bind])
  | ok q =>
    rw [haux] at h
    obtain ⟨res, es⟩ := q
    simp [Bind.bind, Except.bind] at h
    obtain ⟨hr, _⟩ := h
    rw [← hr]
    exact cpeFireAux_sentinel env cpe.elements res es haux

/-- Concrete element for the C8 witness: its trigger reads one sensor. -/
def c8elem : CompetenceElement :=
  { name := "ce", trigger := some { senses := [{ name := "s", value := none, pred := "==" }] },
    element := .action "a", maxRetries := -1, retries := 0 }

/-- Concrete one-element priority for the C8 witness. -/
def c8cpe : CompetencePriorityElement := { name := "cp", elements := [c8elem] }

/-- Witness for C8: with a falsy sensor the fire result is the sentinel, and
the theorem yields that no element of the scan was ready. -/
theorem claim_C8_witness :
    cpeAnyReady (fun _ => PyValue.int 0) c8cpe.elements = .ok false :=
  (claim_C8_sentinel_distinguishable (fun _ => PyValue.int 0) c8cpe cpeSentinel c8cpe
    rfl).1.mp rfl

/-! Claim C5: the logical-step frequency-gating run.  Each host step n calls
the readiness check at timestamp n (the stepped timer advances by one per
loopEnd); the schedule records on which steps the priority scan actually
reaches the element. -/

/-- One step of the run: when scheduled, the element state advances by the
readiness check at timestamp n. -/
def freqStep (env : String → PyValue) (sched : Nat → Bool) (de : DriveElement) (n : Nat) :
    DriveElement :=
  if sched n then
    match de.isReady env (n : Int) with
    | .ok (_, de2) => de2
    | .error _ => de
  else de

/-- The element state before step n. -/
def freqTrace (env : String → PyValue) (sched : Nat → Bool) (de0 : DriveElement) :
    Nat → DriveElement
  | 0 => de0
  | n + 1 => freqStep env sched (freqTrace env sched de0 n) n

/-- Whether the readiness check at step n is invoked and returns true. -/
def freqReadyAt (env : String → PyValue) (sched : Nat → Bool) (de0 : DriveElement)
    (n : Nat) : Bool :=
  sched n &&
    (match (freqTrace env sched de0 n).isReady env (n : Int) with
     | .ok (b, _) => b
     | .error _ => false)

/-- The three possible outcomes of a drive element readiness check. -/
lemma driveIsReady_cases (env : String → PyValue) (ts : Int) (de : DriveElement) :
    de.isReady env ts = .error (.attributeError "NoneType object has no attribute fire") ∨
    de.isReady env ts = .ok (true, { de with lastFired := ts }) ∨
    de.isReady env ts = .ok (false, de) := by
  unfold DriveElement.isReady
  cases de.trigger with
  | none => exact Or.inl rfl
  | some t => split_ifs <;> simp

/-- A scheduled step either leaves the element unchanged or commits the
current timestamp to its last-fired field. -/
lemma freqStep_cases (env : String → PyValue) (sched : Nat → Bool) (de : DriveElement)
    (n : Nat) :
    freqStep env sched de n = de ∨
    freqStep env sched de n = { de with lastFired := (n : Int) } := by
  unfold freqStep
  by_cases hs : sched n
  · rcases driveIsReady_cases env (n : Int) de with h | h | h <;> simp [hs, h]
  · simp [hs]

/-- Trigger and maximal frequency are constant along the run. -/
lemma freqTrace_fields (env : String → PyValue) (sched : Nat → Bool) (de0 : DriveElement)
    (n : Nat) :
    (freqTrace env sched de0 n).trigger = de0.trigger ∧
    (freqTrace env sched de0 n).maxFreq = de0.maxFreq := by
  induction n with
  | zero => exact ⟨rfl, rfl⟩
  | succ n ih =>
    rcases freqStep_cases env sched (freqTrace env sched de0 n) n with h | h <;>
      simp [freqTrace, h, ih.1, ih.2]

/-- The last-fired field after a step is the old one or the step index. -/
lemma freqTrace_lastFired_cases (env : String → PyValue) (sched : Nat → Bool)
    (de0 : DriveElement) (n : Nat) :
    (freqTrace env sched de0 (n + 1)).lastFired = (freqTrace env sched de0 n).lastFired ∨
    (freqTrace env sched de0 (n + 1)).lastFired = (n : Int) := by
  rcases freqStep_cases env sched (freqTrace env sched de0 n) n with h | h <;>
    simp [freqTrace, h]

/-- Readiness with an always-true trigger and a fixed nonnegative interval:
the check reduces to the elapsed-time test. -/
lemma c5_isReady (env : String → PyValue) (de : DriveElement) (t : Trigger) (k ts : Int)
    (htr : de.trigger = some t) (htrue : t.fire env = true)
    (hk : de.maxFreq = some k) (hk0 : 0 ≤ k) :
    de.isReady env ts =
      if ts - de.lastFired ≥ k then .ok (true, { de with lastFired := ts })
      else .ok (false, de) := by
  unfold DriveElement.isReady
  rw [htr, hk]
  simp [htrue, pyLtNoneInt, not_lt.mpr hk0]

/-- A true readiness check at step n commits last-fired to n and certifies
that at least k time passed since the previous commit. -/
lemma freqReady_sets (env : String → PyValue) (sched : Nat → Bool) (de0 : DriveElement)
    (t : Trigger) (k : Int) (htr : de0.trigger = some t) (htrue : t.fire env = true)
    (hk : de0.maxFreq = some k) (hk0 : 0 ≤ k) (n : Nat)
    (h : freqReadyAt env sched de0 n = true) :
    (freqTrace env sched de0 (n + 1)).lastFired = (n : Int) ∧
    (n : Int) - (freqTrace env sched de0 n).lastFired ≥ k := by
  have hf := freqTrace_fields env sched de0 n
  have htr2 : (freqTrace env sched de0 n).trigger = some t := by rw [hf.1, htr]
  have hk2 : (freqTrace env sched de0 n).maxFreq = some k := by rw [hf.2, hk]
  have hready := c5_isReady env (freqTrace env sched de0 n) t k (n : Int) htr2 htrue hk2 hk0
  unfold freqReadyAt at h
  rw [hready] at h
  by_cases hcond : (n : Int) - (freqTrace env sched de0 n).lastFired ≥ k
  · have hs : sched n = true := by
      by_contra hns
      rw [Bool.not_eq_true] at hns
      rw [hns] at h
      simp at h
    refine ⟨?_, hcond⟩
    show (freqStep env sched (freqTrace env sched de0 n) n).lastFired = (n : Int)
    simp [freqStep, hs, hready, hcond]
  · exact absurd h (by simp [hcond])

/-- After a true check at step m, the last-fired field never drops below m. -/
lemma freqTrace_lastFired_ge (env : String → PyValue) (sched : Nat → Bool)
    (de0 : DriveElement) (t : Trigger) (k : Int) (htr : de0.trigger = some t)
    (htrue : t.fire env = true) (hk : de0.maxFreq = some k) (hk0 : 0 ≤ k) (m : Nat)
    (hm : freqReadyAt env sched de0 m = true) :
    ∀ n, m < n → (freqTrace env sched de0 n).lastFired ≥ (m : Int) := by
  intro n hn
  induction n with
  | zero => exact absurd hn (Nat.not_lt_zero m)
  | succ n ih =>
    rcases Nat.lt_succ_iff_lt_or_eq.mp hn with h | h
    · rcases freqTrace_lastFired_cases env sched de0 n with hc | hc
      · rw [hc]; exact ih h
      · rw [hc]; exact_mod_cast Nat.le_of_lt h
    · subst h
      exact ge_of_eq (freqReady_sets env sched de0 t k htr htrue hk hk0 m hm).1

/-- Claim C5: a drive element with an always-true trigger and nonnegative
max-firing-interval k, run under the logical-step timer, is found ready at
most once per window of length k: any two steps at which the readiness check
returns true are at least k apart, and a true check commits last-fired to the
current timestamp. -/
theorem claim_C5_frequency_gating (env : String → PyValue) (sched : Nat → Bool)
    (de0 : DriveElement) (t : Trigger) (k : Int) (htr : de0.trigger = some t)
    (htrue : t.fire env = true) (hk : de0.maxFreq = some k) (hk0 : 0 ≤ k) :
    (∀ m n : Nat, m < n → freqReadyAt env sched de0 m = true →
      freqReadyAt env sched de0 n = true → (n : Int) - (m : Int) ≥ k) ∧
    (∀ n : Nat, freqReadyAt env sched de0 n = true →
      (freqTrace env sched de0 (n + 1)).lastFired = (n : Int)) := by
  constructor
  · intro m n hmn hm hn
    have h1 := (freqReady_sets env sched de0 t k htr htrue hk hk0 n hn).2
    have h2 := freqTrace_lastFired_ge env sched de0 t k htr htrue hk hk0 m hm n hmn
    linarith
  · intro n hn
    exact (freqReady_sets env sched de0 t k htr htrue hk hk0 n hn).1

/-- Witness for C5: a concrete run with interval 2 and an empty-conjunction
trigger; the theorem applied at steps 0 and 2 shows the window bound, and the
commit clause at step 0. -/
theorem claim_C5_witness :
    ((2 : Int) - (0 : Int) ≥ 2) ∧
    (freqTrace (fun _ => PyValue.int 1) (fun _ => true)
      { name := "e", trigger := some { senses := [] }, root := .action "a",
        element := .action "a", maxFreq := some 2, lastFired := -100000, deId := 0 } 1).lastFired
      = (0 : Int) := by
  constructor
  · exact (claim_C5_frequency_gating (fun _ => PyValue.int 1) (fun _ => true)
      { name := "e", trigger := some { senses := [] }, root := .action "a",
        element := .action "a", maxFreq := some 2, lastFired := -100000, deId := 0 }
      { senses := [] } 2 rfl rfl rfl (by decide)).1 0 2 (by decide) (by decide) (by decide)
  · exact (claim_C5_frequency_gating (fun _ => PyValue.int 1) (fun _ => true)
      { name := "e", trigger := some { senses := [] }, root := .action "a",
        element := .action "a", maxFreq := some 2, lastFired := -100000, deId := 0 }
      { senses := [] } 2 rfl rfl rfl (by decide)).2 0 (by decide)

/-! Claim C6: the retry budget run.  Each invocation n applies the readiness
check (the timestamp is ignored by competence elements). -/

/-- One readiness invocation of a competence element. -/
def retryStep (env : String → PyValue) (ce : CompetenceElement) : CompetenceElement :=
  match ce.isReady env 0 with
  | .ok (_, ce2) => ce2
  | .error _ => ce

/-- The element state before invocation n. -/
def retryTrace (env : String → PyValue) (ce0 : CompetenceElement) :
    Nat → CompetenceElement
  | 0 => ce0
  | n + 1 => retryStep env (retryTrace env ce0 n)

/-- Whether the readiness check of invocation n returns true. -/
def retryReadyAt (env : String → PyValue) (ce0 : CompetenceElement) (n : Nat) : Bool :=
  match (retryTrace env ce0 n).isReady env 0 with
  | .ok (b, _) => b
  | .error _ => false

/-- The readiness check with a satisfied trigger, as a single conditional. -/
lemma ce_isReady_eq (env : String → PyValue) (ce : CompetenceElement) (t : Trigger)
    (ts : Int) (htr : ce.trigger = some t) (htrue : t.fire env = true) :
    ce.isReady env ts =
      if ce.maxRetries < 0 ∨ ce.retries ≤ ce.maxRetries then
        .ok (true, { ce with retries := ce.retries + 1 })
      else .ok (false, ce) := by
  unfold CompetenceElement.isReady
  rw [htr]
  by_cases h1 : ce.maxRetries < 0
  · simp [htrue, h1]
  · by_cases h2 : ce.retries ≤ ce.maxRetries
    · simp [htrue, h1, h2]
    · simp [htrue, h1, h2]

/-- Trigger and maximal retries are constant along the run. -/
lemma retryTrace_fields (env : String → PyValue) (ce0 : CompetenceElement) (t : Trigger)
    (htr : ce0.trigger = some t) (htrue : t.fire env = true) (n : Nat) :
    (retryTrace env ce0 n).trigger = some t ∧
    (retryTrace env ce0 n).maxRetries = ce0.maxRetries := by
  induction n with
  | zero => exact ⟨htr, rfl⟩
  | succ n ih =>
    have h := ce_isReady_eq env (retryTrace env ce0 n) t 0 ih.1 htrue
    show (retryStep env (retryTrace env ce0 n)).trigger = some t ∧
      (retryStep env (retryTrace env ce0 n)).maxRetries = ce0.maxRetries
    unfold retryStep
    rw [h]
    split_ifs <;> simp [ih.1, ih.2]

/-- The consumed-retry counter along the run with budget r: it counts the
invocations up to the cap r + 1. -/
lemma retryTrace_retries (env : String → PyValue) (ce0 : CompetenceElement) (t : Trigger)
    (r : Int) (htr : ce0.trigger = some t) (htrue : t.fire env = true)
    (h0 : ce0.retries = 0) (hr : ce0.maxRetries = r) (hr0 : 0 ≤ r) :
    ∀ n : Nat, (retryTrace env ce0 n).retries =
      if (n : Int) ≤ r + 1 then (n : Int) else r + 1 := by
  intro n
  induction n with
  | zero =>
    simp only [retryTrace, h0]
    split_ifs with hcz
    · simp
    · omega
  | succ n ih =>
    have hf := retryTrace_fields env ce0 t htr htrue n
    have h := ce_isReady_eq env (retryTrace env ce0 n) t 0 hf.1 htrue
    rw [hf.2, hr] at h
    show (retryStep env (retryTrace env ce0 n)).retries = _
    unfold retryStep
    rw [h]
    by_cases hc : r < 0 ∨ (retryTrace env ce0 n).retries ≤ r
    · rw [if_pos hc]
      show (retryTrace env ce0 n).retries + 1 = _
      rw [ih]
      rcases hc with h1 | h1
      · omega
      · rw [ih] at h1
        split_ifs at h1 ⊢ <;> omega
    · rw [if_neg hc]
      push_neg at hc
      rw [ih] at hc ⊢
      split_ifs at * <;> omega

/-- Claim C6: with an always-satisfied trigger and max-retries r at least 0,
the readiness check returns true on exactly the first r + 1 invocations
(0-based: n is among them when n is at most r) and false forever afterwards;
each true check consumes one retry unit; reset() puts the consumed-retry
counter back to zero; a negative configured max makes the element ready on
every check. -/
theorem claim_C6_retry_budget (env : String → PyValue) (ce0 : CompetenceElement)
    (t : Trigger) (htr : ce0.trigger = some t) (htrue : t.fire env = true)
    (h0 : ce0.retries = 0) :
    (∀ r : Int, ce0.maxRetries = r → 0 ≤ r →
      ∀ n : Nat, (retryReadyAt env ce0 n = true ↔ (n : Int) ≤ r)) ∧
    (∀ n : Nat, retryReadyAt env ce0 n = true →
      (retryTrace env ce0 (n + 1)).retries = (retryTrace env ce0 n).retries + 1) ∧
    (∀ ce : CompetenceElement, ce.reset.retries = 0) ∧
    (ce0.maxRetries < 0 → ∀ n : Nat, retryReadyAt env ce0 n = true) := by
  refine ⟨?_, ?_, fun ce => rfl, ?_⟩
  · intro r hr hr0 n
    have hf := retryTrace_fields env ce0 t htr htrue n
    have h := ce_isReady_eq env (retryTrace env ce0 n) t 0 hf.1 htrue
    have hret := retryTrace_retries env ce0 t r htr htrue h0 hr hr0 n
    rw [hf.2, hr, hret] at h
    unfold retryReadyAt
    rw [h]
    by_cases hc : (n : Int) ≤ r
    · have hcond : r < 0 ∨ (if (n : Int) ≤ r + 1 then (n : Int) else r + 1) ≤ r := by
        right
        rw [if_pos (by omega)]
        exact hc
      rw [if_pos hcond]
      simp [hc]
    · have hcond : ¬(r < 0 ∨ (if (n : Int) ≤ r + 1 then (n : Int) else r + 1) ≤ r) := by
        push_neg
        refine ⟨by omega, ?_⟩
        split_ifs <;> omega
      rw [if_neg hcond]
      simp [hc]
  · intro n hn
    have hf := retryTrace_fields env ce0 t htr htrue n
    have h := ce_isReady_eq env (retryTrace env ce0 n) t 0 hf.1 htrue
    unfold retryReadyAt at hn
    rw [h] at hn
    show (retryStep env (retryTrace env ce0 n)).retries = _
    unfold retryStep
    rw [h]
    by_cases hc : (retryTrace env ce0 n).maxRetries < 0 ∨
        (retryTrace env ce0 n).retries ≤ (retryTrace env ce0 n).maxRetries
    · rw [if_pos hc]
    · rw [if_neg hc] at hn
      simp at hn
  · intro hneg n
    have hf := retryTrace_fields env ce0 t htr htrue n
    have h := ce_isReady_eq env (retryTrace env ce0 n) t 0 hf.1 htrue
    unfold retryReadyAt
    rw [h, if_pos (Or.inl (hf.2 ▸ hneg))]

/-- Witness for C6: a concrete element with budget 1 is ready at invocation 1
(its second) and reset clears the counter. -/
theorem claim_C6_witness :
    (retryReadyAt (fun _ => PyValue.int 1)
      { name := "ce", trigger := some { senses := [] }, element := .action "a",
        maxRetries := 1, retries := 0 } 1 = true) ∧
    (CompetenceElement.reset
      { name := "ce", trigger := some { senses := [] }, element := .action "a",
        maxRetries := 1, retries := 2 }).retries = 0 := by
  constructor
  · exact ((claim_C6_retry_budget (fun _ => PyValue.int 1)
      { name := "ce", trigger := some { senses := [] }, element := .action "a",
        maxRetries := 1, retries := 0 }
      { senses := [] } rfl rfl rfl).1 1 rfl (by decide) 1).mpr (by decide)
  · exact (claim_C6_retry_budget (fun _ => PyValue.int 1)
      { name := "ce", trigger := some { senses := [] }, element := .action "a",
        maxRetries := 1, retries := 0 }
      { senses := [] } rfl rfl rfl).2.2.1
      { name := "ce", trigger := some { senses := [] }, element := .action "a",
        maxRetries := 1, retries := 2 }

/-! Claim C2: Scenario A.  The literal plan text of the scenario is rejected
by the embedded parser (quoted names lex as COMMENT tokens and the drive
collection lacks the plan-level and priority-level parenthesis nesting of the
grammar); with the syntax brought onto the grammar the plan compiles, but the
nil trigger is stored as no trigger object, so the very first evaluation step
raises from the readiness check instead of returning FOLLOWED. -/

/-- The plan text of Scenario A as written in the spec. -/
def scenarioALiteral : String := "(SDC \"d\" nil (drives (((\"e1\" nil \"doThing\" nil)))))"

/-- The same scenario in the concrete syntax the grammar accepts. -/
def scenarioAFixed : String := "((SDC d nil (drives ((e1 nil doThing nil)))))"

/-- Registry with the single action doThing. -/
def scenarioABd : BehaviourDict := { actions := ["doThing"], senses := [] }

/-- Compilation of the syntax-corrected scenario plan. -/
def scenarioABuild : Except PyErr BuiltPlan := do
  let pb ← lapParse scenarioAFixed
  pb.build scenarioABd

/-- The first evaluation step of the built scenario plan.  doThing returns
true on every call; the step never reaches it. -/
def scenarioAStep : Except PyErr (Int × AgentState) := do
  let bp ← scenarioABuild
  followDrive (fun _ => .int 1) (fun _ => { continueExecution := false, nextElement := none })
    { timer := 0, dc := bp.dc }

/-- Claim C2 evaluated at the failing input: the literal scenario text fails
to parse; the syntax-corrected plan builds with no trigger object on its
drive element, selecting the stepped timer; and the first call of the
one-step evaluation raises AttributeError instead of returning FOLLOWED. -/
theorem claim_C2_scenarioA_codebug :
    lapParse scenarioALiteral = .error (.parseError
      "Expected ( as start of documentation, competence, action-pattern or drive-collection, or ) to end plan") ∧
    (scenarioABuild.map fun bp =>
      (bp.timer, bp.dc.elements.map fun pe => pe.elements.map DriveElement.trigger)) =
      .ok (.stepped, [[none]]) ∧
    scenarioAStep = .error (.attributeError "NoneType object has no attribute fire") := by
  refine ⟨by decide, by decide, by decide⟩

/-! Claim C3: the top-level outcome mapping of one evaluation step. -/

/-- The readiness scan of one drive priority element: true when some drive
element is found ready; the element threading mirrors
DrivePriorityElement.fire (an unready element is returned unchanged by
isReady, a ready one stops the scan). -/
def dpeReadyScan (env : String → PyValue) (ts : Int) :
    List DriveElement → Except PyErr (Bool × List DriveElement)
  | [] => .ok (false, [])
  | de :: rest => do
    let (r, de2) ← de.isReady env ts
    if r then .ok (true, de2 :: rest)
    else do
      let (b, rest2) ← dpeReadyScan env ts rest
      .ok (b, de2 :: rest2)

/-- Whether some drive priority element fires a ready drive element during
one collection pass, in priority order with the first success stopping the
scan. -/
def dcAnyFired (env : String → PyValue) (ts : Int) :
    List DrivePriorityElement → Except PyErr Bool
  | [] => .ok false
  | pe :: rest => do
    let (b, _) ← dpeReadyScan env ts pe.elements
    if b then .ok true else dcAnyFired env ts rest

/-- Whether the drive collection goal is set and satisfied. -/
def goalSat (env : String → PyValue) (dc : DriveCollection) : Bool :=
  match dc.goal with
  | some g => g.fire env
  | none => false

/-- The firing loop and the readiness scan of a drive priority element fail
alike and succeed alike, the success flag of the scan matching the presence
of a fire result. -/
lemma dpeScan_rel (env : String → PyValue) (ts : Int) (cf : NodeRef → FireResult) :
    ∀ des : List DriveElement,
      (∃ e, dpeFireAux env ts cf des = .error e ∧ dpeReadyScan env ts des = .error e) ∨
      (∃ o des1 b des2, dpeFireAux env ts cf des = .ok (o, des1) ∧
        dpeReadyScan env ts des = .ok (b, des2) ∧ o.isSome = b) := by
  intro des
  induction des with
  | nil => exact Or.inr ⟨none, [], false, [], rfl, rfl, rfl⟩
  | cons de rest ih =>
    cases hir : de.isReady env ts with
    | error e =>
      refine Or.inl ⟨e, ?_, ?_⟩ <;>
        simp [dpeFireAux, dpeReadyScan, hir, Bind.bind, Except.bind]
    | ok p =>
      obtain ⟨b, de2⟩ := p
      cases b with
      | true =>
        refine Or.inr ⟨some { continueExecution := false, nextElement := none },
          de2.fire (cf de2.element) :: rest, true, de2 :: rest, ?_, ?_, rfl⟩ <;>
          simp [dpeFireAux, dpeReadyScan, hir, Bind.bind, Except.bind]
      | false =>
        rcases ih with ⟨e, h1, h2⟩ | ⟨o, des1, b2, des2, h1, h2, h3⟩
        · refine Or.inl ⟨e, ?_, ?_⟩ <;>
            simp [dpeFireAux, dpeReadyScan, hir, h1, h2, Bind.bind, Except.bind]
        · refine Or.inr ⟨o, de2 :: des1, b2, de2 :: des2, ?_, ?_, h3⟩ <;>
            simp [dpeFireAux, dpeReadyScan, hir, h1, h2, Bind.bind, Except.bind]

/-- The collection firing loop and the any-fired scan fail alike, and the
loop result is the drive-fired value exactly when the scan reports true. -/
lemma dcFired_rel (env : String → PyValue) (ts : Int) (cf : NodeRef → FireResult) :
    ∀ pes : List DrivePriorityElement,
      (∃ e, dcFireAux env ts cf pes = .error e ∧ dcAnyFired env ts pes = .error e) ∨
      (∃ pes1, dcFireAux env ts cf pes =
          .ok ({ continueExecution := true, nextElement := none }, pes1) ∧
        dcAnyFired env ts pes = .ok true) ∨
      (∃ pes1, dcFireAux env ts cf pes =
          .ok ({ continueExecution := false, nextElement := none }, pes1) ∧
        dcAnyFired env ts pes = .ok false) := by
  intro pes
  induction pes with
  | nil => exact Or.inr (Or.inr ⟨[], rfl, rfl⟩)
  | cons pe rest ih =>
    rcases dpeScan_rel env ts cf pe.elements with ⟨e, h1, h2⟩ | ⟨o, des1, b, des2, h1, h2, h3⟩
    · refine Or.inl ⟨e, ?_, ?_⟩ <;>
        simp [dcFireAux, dcAnyFired, DrivePriorityElement.fire, h1, h2, Bind.bind, Except.bind]
    · cases o with
      | some x =>
        have hb : b = true := by rw [← h3]; rfl
        subst hb
        refine Or.inr (Or.inl ⟨{ pe with elements := des1 } :: rest, ?_, ?_⟩) <;>
          simp [dcFireAux, dcAnyFired, DrivePriorityElement.fire, h1, h2, Bind.bind, Except.bind]
      | none =>
        have hb : b = false := by rw [← h3]; rfl
        subst hb
        rcases ih with ⟨e, g1, g2⟩ | ⟨pes1, g1, g2⟩ | ⟨pes1, g1, g2⟩
        · refine Or.inl ⟨e, ?_, ?_⟩ <;>
            simp [dcFireAux, dcAnyFired, DrivePriorityElement.fire, h1, h2, g1, g2,
              Bind.bind, Except.bind]
        · refine Or.inr (Or.inl ⟨{ pe with elements := des1 } :: pes1, ?_, ?_⟩) <;>
            simp [dcFireAux, dcAnyFired, DrivePriorityElement.fire, h1, h2, g1, g2,
              Bind.bind, Except.bind]
        · refine Or.inr (Or.inr ⟨{ pe with elements := des1 } :: pes1, ?_, ?_⟩) <;>
            simp [dcFireAux, dcAnyFired, DrivePriorityElement.fire, h1, h2, g1, g2,
              Bind.bind, Except.bind]

/-- Claim C3: one evaluation step returns WON exactly when the collection
goal is set and satisfied at the start of the step; otherwise FOLLOWED
exactly when some drive priority element fired a ready drive element (tried
in priority order, first success); otherwise LOST. -/
theorem claim_C3_outcome_mapping (env : String → PyValue) (cf : NodeRef → FireResult)
    (ag : AgentState) (res : Int) (ag2 : AgentState)
    (h : followDrive env cf ag = .ok (res, ag2)) :
    (res = DRIVE_WON ↔ goalSat env ag.dc = true) ∧
    (res = DRIVE_FOLLOWED ↔ goalSat env ag.dc = false ∧
      dcAnyFired env ag.timer ag.dc.elements = .ok true) ∧
    (res = DRIVE_LOST ↔ goalSat env ag.dc = false ∧
      dcAnyFired env ag.timer ag.dc.elements = .ok false) := by
  have hgs : goalSat env ag.dc = true ∨ goalSat env ag.dc = false := by
    cases goalSat env ag.dc <;> simp
  unfold followDrive DriveCollection.fire at h
  cases hg : ag.dc.goal with
  | some g =>
    rw [hg] at h
    dsimp only at h
    by_cases hf : g.fire env = true
    · rw [if_pos hf] at h
      simp [Bind.bind, Except.bind] at h
      have hres : res = DRIVE_WON := by
        simp [DRIVE_WON, ← h.1]
      have hsat : goalSat env ag.dc = true := by simp [goalSat, hg, hf]
      subst hres
      refine ⟨by simp [hsat], ?_, ?_⟩ <;>
        simp [hsat, DRIVE_WON, DRIVE_FOLLOWED, DRIVE_LOST]
    · rw [if_neg hf] at h
      have hsat : goalSat env ag.dc = false := by
        simp only [goalSat, hg]
        exact Bool.not_eq_true _ ▸ (by simpa using hf)
      rcases dcFired_rel env ag.timer cf ag.dc.elements with ⟨e, g1, _⟩ |
          ⟨pes1, g1, g2⟩ | ⟨pes1, g1, g2⟩
      · rw [g1] at h
        exact absurd h (by simp [Bind.bind, Except.bind])
      · rw [g1] at h
        simp [Bind.bind, Except.bind] at h
        have hres : res = DRIVE_FOLLOWED := by simp [DRIVE_FOLLOWED, ← h.1]
        subst hres
        refine ⟨?_, ?_, ?_⟩ <;>
          simp [hsat, g2, DRIVE_WON, DRIVE_FOLLOWED, DRIVE_LOST]
      · rw [g1] at h
        simp [Bind.bind, Except.bind] at h
        have hres : res = DRIVE_LOST := by simp [DRIVE_LOST, ← h.1]
        subst hres
        refine ⟨?_, ?_, ?_⟩ <;>
          simp [hsat, g2, DRIVE_WON, DRIVE_FOLLOWED, DRIVE_LOST]
  | none =>
    rw [hg] at h
    dsimp only at h
    have hsat : goalSat env ag.dc = false := by simp [goalSat, hg]
    rcases dcFired_rel env ag.timer cf ag.dc.elements with ⟨e, g1, _⟩ |
        ⟨pes1, g1, g2⟩ | ⟨pes1, g1, g2⟩
    · rw [g1] at h
      exact absurd h (by simp [Bind.bind, Except.bind])
    · rw [g1] at h
      simp [Bind.bind, Except.bind] at h
      have hres : res = DRIVE_FOLLOWED := by simp [DRIVE_FOLLOWED, ← h.1]
      subst hres
      refine ⟨?_, ?_, ?_⟩ <;>
        simp [hsat, g2, DRIVE_WON, DRIVE_FOLLOWED, DRIVE_LOST]
    · rw [g1] at h
      simp [Bind.bind, Except.bind] at h
      have hres : res = DRIVE_LOST := by simp [DRIVE_LOST, ← h.1]
      subst hres
      refine ⟨?_, ?_, ?_⟩ <;>
        simp [hsat, g2, DRIVE_WON, DRIVE_FOLLOWED, DRIVE_LOST]

/-- Concrete drive element for the C3 witness: empty-conjunction trigger
(always true), action root, no frequency cap. -/
def c3de : DriveElement :=
  { name := "e", trigger := some { senses := [] }, root := .action "a",
    element := .action "a", maxFreq := none, lastFired := -100000, deId := 0 }

/-- Concrete priority element for the C3 witness. -/
def c3dpe : DrivePriorityElement := { name := "d", elements := [c3de] }

/-- Concrete agent state for the C3 witness. -/
def c3ag : AgentState :=
  { timer := 0, dc := { name := "d", goal := none, elements := [c3dpe] } }

/-- The priority element after the witness step. -/
def c3dpeAfter : DrivePriorityElement :=
  { name := "d", elements := [{ c3de with lastFired := 0 }] }

/-- The agent state after the witness step: the timer advanced and the drive
element committed its last-fired timestamp. -/
def c3after : AgentState :=
  { timer := 1, dc := { name := "d", goal := none, elements := [c3dpeAfter] } }

/-- Witness for C3: the concrete step returns FOLLOWED, so by the theorem the
goal was not satisfied and some drive fired. -/
theorem claim_C3_witness :
    goalSat (fun _ => PyValue.int 1) c3ag.dc = false ∧
    dcAnyFired (fun _ => PyValue.int 1) c3ag.timer c3ag.dc.elements = .ok true :=
  (claim_C3_outcome_mapping (fun _ => PyValue.int 1)
    (fun _ => { continueExecution := false, nextElement := none })
    c3ag DRIVE_FOLLOWED c3after (by decide)).2.1.mp rfl

/-- Witness for C10 at a concrete drive element built from a nil trigger. -/
theorem claim_C10_witness :
    DriveElement.isReady (fun _ => .int 0) 0
      { name := "e1", trigger := none, root := .action "doThing", element := .action "doThing",
        maxFreq := none, lastFired := -100000, deId := 0 } =
      .error (.attributeError "NoneType object has no attribute fire") :=
  claim_C10_nil_trigger_raises.2.1 (fun _ => .int 0) 0
    { name := "e1", trigger := none, root := .action "doThing", element := .action "doThing",
      maxFreq := none, lastFired := -100000, deId := 0 } rfl

end Sposh
